import Mathlib

/-!
Verification of the feedback-driven code generation and validation loop of
the `projects_tools` repository (`src/projects_tools/llm_integration/`).

The Python classes are embedded shallowly: mutable objects become explicit
state records, every mutating method becomes a pure function from state to
state, and external effects are explicit parameters:

* the filesystem is an insertion-ordered association list from paths to
  file contents (`List (String × String)`), matching the way each write
  replaces a whole file;
* Python `dict`s are insertion-ordered association lists (`insertA` mirrors
  `d[k] = v`: it overwrites in place, keeping the key's position, or
  appends a new key at the end — exactly CPython's dict semantics);
* `hashlib.md5(s.encode()).hexdigest()[:8]` is an uninterpreted parameter
  `md5 : String → String` (concrete instances in witnesses use the real
  md5 prefixes of the strings involved, computed offline);
* `re.compile(p).search(m)` is an uninterpreted parameter
  `search : String → String → Bool` (concrete instances agree with Python's
  `re` on every pair they are applied to);
* `time.time()` is an explicit `now : Nat` argument;
* subprocesses, HTTP requests and the LLM are oracles given as arguments.
-/

/-! ## Association lists with Python dict semantics -/

/-- Lookup of the first binding of a key (`d.get(k)` / `d[k]`). -/
def lookupA {α : Type} : List (String × α) → String → Option α
  | [], _ => none
  | (k, v) :: rest, key => if k = key then some v else lookupA rest key

/-- `d[k] = v` on a CPython dict: overwrite the existing binding in place
(keeping its position) or append a fresh binding at the end. -/
def insertA {α : Type} (key : String) (val : α) : List (String × α) → List (String × α)
  | [] => [(key, val)]
  | (k, v) :: rest => if k = key then (key, val) :: rest else (k, v) :: insertA key val rest

/-- Number of bindings of a key. -/
def countKey {α : Type} (l : List (String × α)) (key : String) : Nat :=
  (l.filter (fun p => p.1 = key)).length

/-- The keys of an association list are pairwise distinct (always true for a
state built from CPython dicts). -/
def keysNodup {α : Type} (l : List (String × α)) : Prop :=
  (l.map Prod.fst).Nodup

instance {α : Type} (l : List (String × α)) : Decidable (keysNodup l) := by
  unfold keysNodup; infer_instance

theorem lookupA_insertA_self {α : Type} (l : List (String × α)) (k : String) (v : α) :
    lookupA (insertA k v l) k = some v := by
  induction l with
  | nil => simp [insertA, lookupA]
  | cons hd tl ih =>
    by_cases h : hd.1 = k
    · simp [insertA, lookupA, h]
    · simp [insertA, lookupA, h, ih]

theorem lookupA_insertA_ne {α : Type} (l : List (String × α)) {k k' : String} (v : α)
    (h : k' ≠ k) : lookupA (insertA k v l) k' = lookupA l k' := by
  have hne : ¬(k = k') := fun hh => h hh.symm
  induction l with
  | nil => simp [insertA, lookupA, hne]
  | cons hd tl ih =>
    by_cases hk : hd.1 = k
    · simp only [insertA, if_pos hk, lookupA, if_neg hne, if_neg (hk ▸ hne)]
    · simp only [insertA, if_neg hk, lookupA, ih]

theorem isSome_lookupA_insertA {α : Type} (l : List (String × α)) (k k' : String) (v : α)
    (h : (lookupA l k').isSome) : (lookupA (insertA k v l) k').isSome := by
  by_cases hk : k' = k
  · subst hk; rw [lookupA_insertA_self]; rfl
  · rw [lookupA_insertA_ne l v hk]; exact h

theorem countKey_cons {α : Type} (p : String × α) (l : List (String × α)) (k : String) :
    countKey (p :: l) k = (if p.1 = k then 1 else 0) + countKey l k := by
  by_cases h : p.1 = k
  · simp [countKey, List.filter_cons, h]
    omega
  · simp [countKey, List.filter_cons, h]

theorem countKey_insertA_self {α : Type} (l : List (String × α)) (k : String) (v : α) :
    countKey (insertA k v l) k = max (countKey l k) 1 := by
  induction l with
  | nil => simp [insertA, countKey]
  | cons hd tl ih =>
    by_cases h : hd.1 = k
    · simp [insertA, h, countKey_cons]
    · simp [insertA, h, countKey_cons, ih]

theorem countKey_le_one_of_keysNodup {α : Type} (l : List (String × α)) (k : String)
    (h : keysNodup l) : countKey l k ≤ 1 := by
  induction l with
  | nil => simp [countKey]
  | cons hd tl ih =>
    unfold keysNodup at h
    simp only [List.map_cons, List.nodup_cons] at h
    rw [countKey_cons]
    by_cases hk : hd.1 = k
    · have hzero : countKey tl k = 0 := by
        unfold countKey
        rw [List.length_eq_zero, List.filter_eq_nil_iff]
        intro p hp hpk
        simp only [decide_eq_true_eq] at hpk
        exact h.1 (by rw [hk, ← hpk]; exact List.mem_map_of_mem Prod.fst hp)
      rw [if_pos hk, hzero]
    · rw [if_neg hk]
      simpa using ih h.2

theorem keys_insertA {α : Type} (l : List (String × α)) (k : String) (v : α) :
    (insertA k v l).map Prod.fst =
      if k ∈ l.map Prod.fst then l.map Prod.fst else l.map Prod.fst ++ [k] := by
  induction l with
  | nil => simp [insertA]
  | cons hd tl ih =>
    by_cases hk : hd.1 = k
    · simp [insertA, hk]
    · have : ¬(k = hd.1) := fun hh => hk hh.symm
      simp only [insertA, if_neg hk, List.map_cons, ih, List.mem_cons, this, false_or]
      by_cases hmem : k ∈ tl.map Prod.fst <;> simp [hmem]

theorem keysNodup_insertA {α : Type} (l : List (String × α)) (k : String) (v : α)
    (h : keysNodup l) : keysNodup (insertA k v l) := by
  unfold keysNodup at *
  rw [keys_insertA]
  by_cases hmem : k ∈ l.map Prod.fst
  · simpa [hmem] using h
  · simp only [hmem, if_false]
    exact List.Nodup.append h (List.nodup_singleton k) (by
      intro a ha hb
      simp only [List.mem_singleton] at hb
      exact hmem (hb ▸ ha))

theorem eq_of_mem_of_keysNodup {α : Type} {l : List (String × α)} {k : String} {a b : α}
    (h : keysNodup l) (ha : (k, a) ∈ l) (hb : (k, b) ∈ l) : a = b := by
  induction l with
  | nil => cases ha
  | cons hd tl ih =>
    unfold keysNodup at h
    simp only [List.map_cons, List.nodup_cons] at h
    rcases List.mem_cons.mp ha with ha' | ha' <;> rcases List.mem_cons.mp hb with hb' | hb'
    · rw [← ha'] at hb'
      exact (congrArg Prod.snd hb').symm
    · have hk : hd.1 = k := by rw [← ha']
      exact absurd (List.mem_map_of_mem Prod.fst hb') (hk ▸ h.1)
    · have hk : hd.1 = k := by rw [← hb']
      exact absurd (List.mem_map_of_mem Prod.fst ha') (hk ▸ h.1)
    · exact ih h.2 ha' hb'

theorem lookupA_eq_some_of_mem {α : Type} {l : List (String × α)} {k : String} {a : α}
    (h : keysNodup l) (ha : (k, a) ∈ l) : lookupA l k = some a := by
  induction l with
  | nil => cases ha
  | cons hd tl ih =>
    unfold keysNodup at h
    simp only [List.map_cons, List.nodup_cons] at h
    rcases List.mem_cons.mp ha with ha' | ha'
    · rw [← ha']; simp [lookupA]
    · have hne : hd.1 ≠ k := by
        intro he
        exact h.1 (he ▸ List.mem_map_of_mem Prod.fst ha')
      simp only [lookupA, if_neg hne]
      exact ih h.2 ha'

theorem mem_of_lookupA_eq_some {α : Type} {l : List (String × α)} {k : String} {a : α}
    (h : lookupA l k = some a) : (k, a) ∈ l := by
  induction l with
  | nil => simp [lookupA] at h
  | cons hd tl ih =>
    by_cases hk : hd.1 = k
    · simp only [lookupA, if_pos hk] at h
      injection h with h
      have heq : (k, a) = hd :=
        calc (k, a) = (hd.1, hd.2) := by rw [hk, h]
          _ = hd := rfl
      rw [heq]
      exact List.mem_cons_self _ _
    · simp only [lookupA, if_neg hk] at h
      exact List.mem_cons_of_mem _ (ih h)

theorem lookupA_isSome_of_mem {α : Type} {l : List (String × α)} {k : String} {a : α}
    (ha : (k, a) ∈ l) : (lookupA l k).isSome := by
  induction l with
  | nil => cases ha
  | cons hd tl ih =>
    by_cases hk : hd.1 = k
    · simp [lookupA, hk]
    · simp only [lookupA, if_neg hk]
      rcases List.mem_cons.mp ha with ha' | ha'
      · exact absurd (congrArg Prod.fst ha'.symm) hk
      · exact ih ha'

/-! ## Stable descending sort by count

`sorted(pattern_counts.items(), key=lambda x: x[1], reverse=True)` is
Python's stable sort, descending on the second component; ties keep their
original relative order.  `sortByCountDesc` realizes exactly that
specification (sortedness and stability are proved below). -/

/-- Insert an element that is EARLIER in the original list into the stable
descending sort of the later elements: it passes over strictly greater
counts and lands in front of the first count `≤` its own, hence in front of
every equal count (the later, equal elements stay behind it). -/
def insertByCount (x : String × Nat) : List (String × Nat) → List (String × Nat)
  | [] => [x]
  | y :: ys => if y.2 > x.2 then y :: insertByCount x ys else x :: y :: ys

/-- Stable sort, descending on the count component. -/
def sortByCountDesc : List (String × Nat) → List (String × Nat)
  | [] => []
  | x :: xs => insertByCount x (sortByCountDesc xs)

theorem mem_insertByCount (x y : String × Nat) (l : List (String × Nat)) :
    y ∈ insertByCount x l ↔ y = x ∨ y ∈ l := by
  induction l with
  | nil => simp [insertByCount]
  | cons hd tl ih =>
    by_cases h : hd.2 > x.2
    · simp only [insertByCount, if_pos h, List.mem_cons, ih]
      tauto
    · simp only [insertByCount, if_neg h, List.mem_cons]

theorem mem_sortByCountDesc (y : String × Nat) (l : List (String × Nat)) :
    y ∈ sortByCountDesc l ↔ y ∈ l := by
  induction l with
  | nil => simp [sortByCountDesc]
  | cons hd tl ih =>
    simp only [sortByCountDesc, mem_insertByCount, List.mem_cons, ih]

theorem sorted_insertByCount (x : String × Nat) (l : List (String × Nat))
    (h : l.Pairwise (fun a b => b.2 ≤ a.2)) :
    (insertByCount x l).Pairwise (fun a b => b.2 ≤ a.2) := by
  induction l with
  | nil => simp [insertByCount]
  | cons hd tl ih =>
    rcases List.pairwise_cons.mp h with ⟨hhd, htl⟩
    by_cases hgt : hd.2 > x.2
    · simp only [insertByCount, if_pos hgt]
      rw [List.pairwise_cons]
      refine ⟨fun b hb => ?_, ih htl⟩
      rcases (mem_insertByCount x b tl).mp hb with hb' | hb'
      · rw [hb']; omega
      · exact hhd b hb'
    · simp only [insertByCount, if_neg hgt]
      rw [List.pairwise_cons]
      refine ⟨fun b hb => ?_, h⟩
      rcases List.mem_cons.mp hb with hb' | hb'
      · rw [hb']; omega
      · have := hhd b hb'
        omega

theorem sorted_sortByCountDesc (l : List (String × Nat)) :
    (sortByCountDesc l).Pairwise (fun a b => b.2 ≤ a.2) := by
  induction l with
  | nil => simp [sortByCountDesc]
  | cons hd tl ih => exact sorted_insertByCount hd _ ih

/-- Stability: among entries with one and the same count, the sort keeps the
original relative order (this pins down the tie-breaking behaviour). -/
theorem filter_insertByCount (x : String × Nat) (l : List (String × Nat)) (n : Nat) :
    (insertByCount x l).filter (fun p => p.2 = n) =
      if x.2 = n then x :: l.filter (fun p => p.2 = n)
      else l.filter (fun p => p.2 = n) := by
  induction l with
  | nil =>
    by_cases h : x.2 = n
    · simp [insertByCount, List.filter_cons, h]
    · simp [insertByCount, List.filter_cons, h]
  | cons hd tl ih =>
    by_cases hgt : hd.2 > x.2
    · simp only [insertByCount, if_pos hgt, List.filter_cons, ih]
      by_cases hx : x.2 = n
      · have hne : ¬(hd.2 = n) := by omega
        simp [hx, hne]
      · simp [hx]
    · simp only [insertByCount, if_neg hgt, List.filter_cons]
      by_cases hx : x.2 = n
      · simp [hx]
      · simp [hx]

theorem filter_sortByCountDesc (l : List (String × Nat)) (n : Nat) :
    (sortByCountDesc l).filter (fun p => p.2 = n) = l.filter (fun p => p.2 = n) := by
  induction l with
  | nil => simp [sortByCountDesc]
  | cons hd tl ih =>
    rw [sortByCountDesc, filter_insertByCount]
    by_cases h : hd.2 = n
    · simp [List.filter_cons, h, ih]
    · simp [List.filter_cons, h, ih]

/-! ## Python primitives -/

/-- Python string interpolation of an `Optional[str]` (`None` prints as
`"None"`). -/
def pyStrOfOptStr : Option String → String
  | none => "None"
  | some s => s

/-- Python string interpolation of an `Optional[int]`. -/
def pyStrOfOptInt : Option Int → String
  | none => "None"
  | some i => toString i

/-- Python `x or d` for a numeric optional argument: `None` and `0` are both
falsy, so they yield the default. -/
def pyOrNat (x : Option Nat) (d : Nat) : Nat :=
  match x with
  | none => d
  | some v => if v = 0 then d else v

/-- `os.path.join(root, p)` for the cases that arise here: an absolute
second component wins, otherwise the components are joined with `/`. -/
def pyPathJoin (root p : String) : String :=
  if p.toList.take 1 = ['/'] then p else root ++ "/" ++ p

/-- Index of the last occurrence of a character in a list, if any. -/
def lastIdxOf (c : Char) : List Char → Option Nat
  | [] => none
  | x :: xs =>
    match lastIdxOf c xs with
    | some i => some (i + 1)
    | none => if x = c then some 0 else none

/-- `pathlib.Path(p).name`: the final path component, ignoring a trailing
slash. -/
def pathName (p : String) : String :=
  let cs := if p.toList ≠ [] ∧ p.toList.getLast? = some '/'
            then p.toList.dropLast else p.toList
  match lastIdxOf '/' cs with
  | some i => String.mk (cs.drop (i + 1))
  | none => String.mk cs

/-- ASCII lower-casing (`str.lower()`; the needles classified against are
plain ASCII, so this is all the classifier exercises). -/
def chLower (c : Char) : Char :=
  if 'A' ≤ c ∧ c ≤ 'Z' then Char.ofNat (c.toNat + 32) else c

/-- The extension part of `os.path.splitext(path)[1]`, lower-cased as the
validator does (`.lower()`): the suffix from the last dot of the basename,
unless the basename consists of leading dots only. -/
def pyExtLower (path : String) : String :=
  let cs := path.toList
  let base := match lastIdxOf '/' cs with
              | some i => cs.drop (i + 1)
              | none => cs
  match lastIdxOf '.' base with
  | none => ""
  | some i =>
    if (base.take i).all (fun c => c = '.') then ""
    else String.mk ((base.drop i).map chLower)

/-- Whether the first list is a prefix of the second. -/
def listStartsWith {α : Type} [DecidableEq α] : List α → List α → Bool
  | [], _ => true
  | _ :: _, [] => false
  | a :: as, b :: bs => if a = b then listStartsWith as bs else false

/-- Whether the first list occurs as a contiguous segment of the second. -/
def listContains {α : Type} [DecidableEq α] (needle : List α) : List α → Bool
  | [] => listStartsWith needle []
  | b :: bs => if listStartsWith needle (b :: bs) then true else listContains needle bs

/-- Python `needle in line.lower()` (substring containment, used by the lint
output classifiers). -/
def containsLower (needle line : String) : Bool :=
  listContains needle.toList (line.toList.map chLower)

/-! ## ErrorCollector (`error_collector.py`) -/

/-- `ErrorPattern.__init__` (`compiled_pattern` is the `re` oracle applied to
`pattern`, so it is not a separate field). -/
structure ErrorPattern where
  pattern_id : String
  pattern : String
  description : String
  examples : List String
  fix_suggestions : List String
deriving DecidableEq

/-- `ErrorPattern.matches`: `bool(self.compiled_pattern.search(error))`. -/
def ErrorPattern.matches (search : String → String → Bool) (p : ErrorPattern)
    (error : String) : Bool :=
  search p.pattern error

/-- `ErrorInstance.__init__` (with `matched_patterns = []`; timestamps are
explicit `Nat`s). -/
structure ErrorInstance where
  error_id : String
  error_message : String
  file_path : Option String
  line_number : Option Int
  column_number : Option Int
  context : Option String
  timestamp : Nat
  matched_patterns : List String
deriving DecidableEq

/-- `ErrorInstance.add_matched_pattern`: append the id unless already
present. -/
def ErrorInstance.add_matched_pattern (pattern_id : String) (i : ErrorInstance) :
    ErrorInstance :=
  if pattern_id ∈ i.matched_patterns then i
  else { i with matched_patterns := i.matched_patterns ++ [pattern_id] }

/-- The two dict attributes of `ErrorCollector` (`project_path` only feeds
`Path(...)` and is irrelevant to every operation, so it is dropped). -/
structure ErrorCollector where
  error_patterns : List (String × ErrorPattern)
  error_instances : List (String × ErrorInstance)
deriving DecidableEq

/-- `ErrorCollector.add_error_pattern`: the id is the 8-char md5 prefix of
the regex text; the pattern is stored under that id. -/
def ErrorCollector.add_error_pattern (md5 : String → String) (pattern description : String)
    (examples fix_suggestions : Option (List String)) (c : ErrorCollector) :
    String × ErrorCollector :=
  let pattern_id := md5 pattern
  let error_pattern : ErrorPattern :=
    { pattern_id := pattern_id
      pattern := pattern
      description := description
      examples := examples.getD []
      fix_suggestions := fix_suggestions.getD [] }
  (pattern_id, { c with error_patterns := insertA pattern_id error_pattern c.error_patterns })

/-- `ErrorCollector._load_built_in_patterns`: the eight seeded patterns, in
registration order. -/
def ErrorCollector._load_built_in_patterns (md5 : String → String) (c : ErrorCollector) :
    ErrorCollector :=
  let c := (c.add_error_pattern md5 "SyntaxError: invalid syntax"
    "Invalid syntax in Python code"
    (some ["SyntaxError: invalid syntax"])
    (some ["Check for missing parentheses, brackets, or quotes",
           "Ensure proper indentation",
           "Check for missing colons after if/for/while statements"])).2
  let c := (c.add_error_pattern md5
    "IndentationError: (expected an indented block|unexpected indent)"
    "Indentation error in Python code"
    (some ["IndentationError: expected an indented block",
           "IndentationError: unexpected indent"])
    (some ["Ensure consistent indentation (use either tabs or spaces, not both)",
           "Check for missing indentation after if/for/while statements",
           "Ensure all lines in a block have the same indentation level"])).2
  let c := (c.add_error_pattern md5 "NameError: name '(\\w+)' is not defined"
    "Reference to undefined variable in Python code"
    (some ["NameError: name 'foo' is not defined"])
    (some ["Check for typos in variable names",
           "Ensure the variable is defined before it is used",
           "Check if the variable is defined in the correct scope"])).2
  let c := (c.add_error_pattern md5 "SyntaxError: Unexpected token"
    "Unexpected token in JavaScript code"
    (some ["SyntaxError: Unexpected token ')'"])
    (some ["Check for missing or mismatched parentheses, brackets, or braces",
           "Ensure proper semicolon usage",
           "Check for invalid JavaScript syntax"])).2
  let c := (c.add_error_pattern md5 "ReferenceError: (\\w+) is not defined"
    "Reference to undefined variable in JavaScript code"
    (some ["ReferenceError: foo is not defined"])
    (some ["Check for typos in variable names",
           "Ensure the variable is defined before it is used",
           "Check if the variable is defined in the correct scope"])).2
  let c := (c.add_error_pattern md5 "ImportError: No module named '(\\w+)'"
    "Module import error in Python code"
    (some ["ImportError: No module named 'requests'"])
    (some ["Install the missing module using pip",
           "Check for typos in the module name",
           "Ensure the module is in the Python path"])).2
  let c := (c.add_error_pattern md5 "ModuleNotFoundError: No module named '(\\w+)'"
    "Module not found error in Python code"
    (some ["ModuleNotFoundError: No module named 'requests'"])
    (some ["Install the missing module using pip",
           "Check for typos in the module name",
           "Ensure the module is in the Python path"])).2
  let c := (c.add_error_pattern md5 "TypeError: (.*)"
    "Type error in Python code"
    (some ["TypeError: can't multiply sequence by non-int of type 'str'",
           "TypeError: 'int' object is not iterable"])
    (some ["Check the types of the variables involved",
           "Ensure proper type conversion where needed",
           "Use appropriate methods for the data types"])).2
  c

/-- `ErrorCollector.__init__`: empty dicts, then the built-in patterns. -/
def ErrorCollector.init (md5 : String → String) : ErrorCollector :=
  ErrorCollector._load_built_in_patterns md5
    { error_patterns := [], error_instances := [] }

/-- The f-string `f"{error_message}:{file_path}:{line_number}:{column_number}"`
hashed to obtain an error id. -/
def errorKeyString (error_message : String) (file_path : Option String)
    (line_number column_number : Option Int) : String :=
  error_message ++ ":" ++ pyStrOfOptStr file_path ++ ":" ++
    pyStrOfOptInt line_number ++ ":" ++ pyStrOfOptInt column_number

/-- `ErrorCollector.add_error`: build the instance, scan every registered
pattern in registration order adding the ids whose regex search succeeds,
then store under the content-hash id. -/
def ErrorCollector.add_error (md5 : String → String) (search : String → String → Bool)
    (now : Nat) (error_message : String) (file_path : Option String)
    (line_number column_number : Option Int) (context : Option String)
    (timestamp : Option Nat) (c : ErrorCollector) : String × ErrorCollector :=
  let error_id := md5 (errorKeyString error_message file_path line_number column_number)
  let error_instance : ErrorInstance :=
    { error_id := error_id
      error_message := error_message
      file_path := file_path
      line_number := line_number
      column_number := column_number
      context := context
      timestamp := pyOrNat timestamp now
      matched_patterns := [] }
  let error_instance := c.error_patterns.foldl
    (fun inst pp =>
      if ErrorPattern.matches search pp.2 error_message
      then inst.add_matched_pattern pp.1 else inst)
    error_instance
  (error_id, { c with error_instances := insertA error_id error_instance c.error_instances })

/-- The `pattern_counts` dict of `get_most_common_patterns`: one increment
per occurrence of a pattern id in a stored instance's `matched_patterns`,
scanning instances in dict (insertion) order. -/
def ErrorCollector.pattern_counts (c : ErrorCollector) : List (String × Nat) :=
  c.error_instances.foldl
    (fun acc kv =>
      kv.2.matched_patterns.foldl
        (fun acc2 pattern_id =>
          insertA pattern_id ((lookupA acc2 pattern_id).getD 0 + 1) acc2)
        acc)
    []

/-- `ErrorCollector.get_most_common_patterns`:
`sorted(pattern_counts.items(), key=lambda x: x[1], reverse=True)[:limit]`. -/
def ErrorCollector.get_most_common_patterns (limit : Nat) (c : ErrorCollector) :
    List (String × Nat) :=
  (sortByCountDesc c.pattern_counts).take limit

/-! ## FeedbackLoop (`feedback_loop.py`) -/

/-- `FeedbackEntry.__init__` (created unresolved with no resolution). -/
structure FeedbackEntry where
  entry_id : String
  component_path : String
  feedback_type : String
  feedback_message : String
  timestamp : Nat
  resolved : Bool
  resolution : Option String
deriving DecidableEq

/-- `FeedbackEntry.mark_resolved`. -/
def FeedbackEntry.mark_resolved (resolution : Option String) (e : FeedbackEntry) :
    FeedbackEntry :=
  { e with resolved := true, resolution := resolution }

/-- State of a `FeedbackLoop` object together with the persisted
`.feedback/feedback.json` document (`saved_file`; `none` = the file does not
exist).  The file stores `entry.to_dict()` per id; `to_dict`/`from_dict`
round-trip every field, so the parsed document is the entry map itself. -/
structure FeedbackLoop where
  feedback_entries : List (String × FeedbackEntry)
  error_collector : ErrorCollector
  saved_file : Option (List (String × FeedbackEntry))
deriving DecidableEq

/-- `FeedbackLoop.__init__`: fresh empty entry dict and a fresh
`ErrorCollector`; it creates the `.feedback` directory but NEVER reads the
existing `feedback.json` (`_load_feedback` is defined and never called), so
`saved_file` is left untouched and `feedback_entries` starts empty. -/
def FeedbackLoop.init (md5 : String → String)
    (saved_file : Option (List (String × FeedbackEntry))) : FeedbackLoop :=
  { feedback_entries := []
    error_collector := ErrorCollector.init md5
    saved_file := saved_file }

/-- `FeedbackLoop._save_feedback`: rewrite the whole document. -/
def FeedbackLoop._save_feedback (fb : FeedbackLoop) : FeedbackLoop :=
  { fb with saved_file := some fb.feedback_entries }

/-- `FeedbackLoop._load_feedback` (dead code in the source: no caller):
replace the entry dict by the parsed document if the file exists. -/
def FeedbackLoop._load_feedback (fb : FeedbackLoop) : FeedbackLoop :=
  match fb.saved_file with
  | none => fb
  | some d => { fb with feedback_entries := d }

/-- The f-string `f"{component_path}:{feedback_type}:{feedback_message}"`
hashed to obtain an entry id. -/
def feedbackKeyString (component_path feedback_type feedback_message : String) : String :=
  component_path ++ ":" ++ feedback_type ++ ":" ++ feedback_message

/-- `FeedbackLoop.add_feedback`: store a fresh (unresolved) entry under the
content-hash id, forward `"error"` feedback to the error collector, save. -/
def FeedbackLoop.add_feedback (md5 : String → String) (search : String → String → Bool)
    (now : Nat) (component_path feedback_type feedback_message : String)
    (fb : FeedbackLoop) : String × FeedbackLoop :=
  let entry_id := md5 (feedbackKeyString component_path feedback_type feedback_message)
  let entry : FeedbackEntry :=
    { entry_id := entry_id
      component_path := component_path
      feedback_type := feedback_type
      feedback_message := feedback_message
      timestamp := now
      resolved := false
      resolution := none }
  let fb := { fb with feedback_entries := insertA entry_id entry fb.feedback_entries }
  let fb :=
    if feedback_type = "error" then
      { fb with error_collector :=
          (fb.error_collector.add_error md5 search now feedback_message
            (some component_path) none none none none).2 }
    else fb
  (entry_id, fb._save_feedback)

/-- `FeedbackLoop.mark_resolved`: false if the id is unknown, else resolve
the stored entry and save. -/
def FeedbackLoop.mark_resolved (entry_id : String) (resolution : Option String)
    (fb : FeedbackLoop) : Bool × FeedbackLoop :=
  match lookupA fb.feedback_entries entry_id with
  | none => (false, fb)
  | some entry =>
    let entries := insertA entry_id (entry.mark_resolved resolution) fb.feedback_entries
    let fb := { fb with feedback_entries := entries }
    (true, fb._save_feedback)

/-- `FeedbackLoop.get_feedback_for_component`: all entries for the path,
resolved or not, in dict order. -/
def FeedbackLoop.get_feedback_for_component (component_path : String) (fb : FeedbackLoop) :
    List FeedbackEntry :=
  (fb.feedback_entries.map Prod.snd).filter (fun e => e.component_path = component_path)

/-- `FeedbackLoop.apply_improvement`: back the file up to `<path>.bak`,
overwrite it with the improved code, then mark every feedback entry for the
path resolved with the fixed note — no validation of any kind is consulted.
A read failure (file absent) aborts before anything is written. -/
def FeedbackLoop.apply_improvement (project_path component_path improved_code : String)
    (fs : List (String × String)) (fb : FeedbackLoop) :
    Bool × List (String × String) × FeedbackLoop :=
  let full_path := pyPathJoin project_path component_path
  match lookupA fs full_path with
  | none => (false, fs, fb)
  | some original =>
    let fs := insertA (full_path ++ ".bak") original fs
    let fs := insertA full_path improved_code fs
    let fb := (fb.get_feedback_for_component component_path).foldl
      (fun acc e => (acc.mark_resolved e.entry_id (some "Applied automatic improvement")).2)
      fb
    (true, fs, fb)

/-! ## ProjectContext (`context_manager.py`) -/

/-- A parsed JSON value (what `json.load`/`json.dump` handle; enough to
model heterogeneous `metadata` dicts and provider response bodies). -/
inductive Jx where
  | null : Jx
  | bool (b : Bool) : Jx
  | num (n : Int) : Jx
  | str (s : String) : Jx
  | arr (elems : List Jx) : Jx
  | obj (fields : List (String × Jx)) : Jx

/-- A `component` record appended by `add_component`. -/
structure Component where
  type : String
  name : String
  path : String
  description : String
  created_at : Nat
deriving DecidableEq

/-- A requirement record; `add_requirement` creates it without an
`updated_at` key, which `update_requirement_status` later adds (hence the
`Option`). -/
structure Requirement where
  description : String
  category : String
  created_at : Nat
  status : String
  updated_at : Option Nat
deriving DecidableEq

/-- A history record appended by `add_history_entry`. -/
structure HistoryEntry where
  action : String
  description : String
  timestamp : Nat
  metadata : List (String × Jx)

/-- The persisted `.project_genie_context.json` document. -/
structure ContextDoc where
  project_name : String
  created_at : Nat
  updated_at : Nat
  components : List Component
  requirements : List Requirement
  history : List HistoryEntry

/-- State of a `ProjectContext` object plus the on-disk document
(`saved_file`; `none` = no document present). -/
structure ProjectContext where
  context : ContextDoc
  saved_file : Option ContextDoc

/-- `ProjectContext._create_default_context`. -/
def ProjectContext._create_default_context (project_path : String) (now : Nat) :
    ContextDoc :=
  { project_name := pathName project_path
    created_at := now
    updated_at := now
    components := []
    requirements := []
    history := [] }

/-- `ProjectContext.__init__` / `_load_context`: the persisted document is
loaded eagerly when it exists (an unreadable document also falls back to the
default, which the `Option` does not distinguish from absence). -/
def ProjectContext.init (project_path : String) (saved_file : Option ContextDoc)
    (now : Nat) : ProjectContext :=
  { context :=
      match saved_file with
      | some d => d
      | none => ProjectContext._create_default_context project_path now
    saved_file := saved_file }

/-- `ProjectContext.save`: stamp `updated_at` and rewrite the document. -/
def ProjectContext.save (now : Nat) (pc : ProjectContext) : ProjectContext :=
  let d := { pc.context with updated_at := now }
  { context := d, saved_file := some d }

/-- `ProjectContext.add_history_entry`. -/
def ProjectContext.add_history_entry (now : Nat) (action description : String)
    (metadata : Option (List (String × Jx))) (pc : ProjectContext) : ProjectContext :=
  let entry : HistoryEntry :=
    { action := action
      description := description
      timestamp := now
      metadata := metadata.getD [] }
  let pc := { pc with context := { pc.context with history := pc.context.history ++ [entry] } }
  pc.save now

/-- Set `requirements[i]["status"]` and `requirements[i]["updated_at"]`. -/
def updateReqAt (now : Nat) (status : String) :
    Nat → List Requirement → List Requirement
  | _, [] => []
  | 0, r :: rs => { r with status := status, updated_at := some now } :: rs
  | n + 1, r :: rs => r :: updateReqAt now status n rs

/-- `ProjectContext.update_requirement_status`: guarded by
`0 <= index < len(requirements)`; in range it rewrites the addressed
requirement and saves (which also stamps the document's own `updated_at`),
out of range it only prints an error — nothing changes, nothing is written,
nothing is raised.  `now` is the `time.time()` stamped into the requirement,
`now'` the one stamped by `save`. -/
def ProjectContext.update_requirement_status (now now' : Nat) (index : Int)
    (status : String) (pc : ProjectContext) : ProjectContext :=
  if 0 ≤ index ∧ index < (pc.context.requirements.length : Int) then
    let pc := { pc with context := { pc.context with
      requirements := updateReqAt now status index.toNat pc.context.requirements } }
    pc.save now'
  else pc

/-! ## CodeValidator (`validator.py`) -/

/-- `ValidationResult` (success flag plus error and warning lists; the
`errors or []` defaulting of `__init__` is the identity on the explicit
lists used below). -/
structure ValidationResult where
  success : Bool
  errors : List String
  warnings : List String
deriving DecidableEq

/-- Outcome of `compile(source, file_path, 'exec')` inside
`_check_python_syntax`'s `try` (which also covers the re-read of the file). -/
inductive CompileOutcome where
  | ok : CompileOutcome
  | syntaxError (lineno : Int) (msg : String) : CompileOutcome
  | otherExc (msg : String) : CompileOutcome

/-- `CodeValidator._check_python_syntax` given the compile outcome. -/
def CodeValidator.py_syntax_check (outcome : CompileOutcome) : ValidationResult :=
  match outcome with
  | .ok => { success := true, errors := [], warnings := [] }
  | .syntaxError lineno msg =>
    { success := false
      errors := ["Syntax error at line " ++ toString lineno ++ ": " ++ msg]
      warnings := [] }
  | .otherExc msg =>
    { success := false
      errors := ["Error checking syntax: " ++ msg]
      warnings := [] }

/-- Line-by-line classification shared by `_run_pylint` and `_run_eslint`:
a line containing `error` (case-insensitively) is an error, else one
containing `warning` is a warning; success iff no error line. -/
def classifyLintLines (lines : List String) : ValidationResult :=
  let errors := lines.filter (fun line => containsLower "error" line)
  let warnings := lines.filter
    (fun line => !containsLower "error" line && containsLower "warning" line)
  { success := errors.isEmpty, errors := errors, warnings := warnings }

/-- `CodeValidator._run_pylint` given the linter oracle: `none` when the
binary is unavailable (or any exception fired), otherwise the stdout
lines. -/
def CodeValidator._run_pylint (pylint : Option (List String)) : Option ValidationResult :=
  pylint.map classifyLintLines

/-- `CodeValidator._run_eslint` (same shape as `_run_pylint`). -/
def CodeValidator._run_eslint (eslint : Option (List String)) : Option ValidationResult :=
  eslint.map classifyLintLines

/-- `CodeValidator._validate_python`: syntax failure returns immediately,
otherwise the optional pylint result is merged (absent = success). -/
def CodeValidator._validate_python (compile_outcome : CompileOutcome)
    (pylint : Option (List String)) : ValidationResult :=
  let syntax_result := CodeValidator.py_syntax_check compile_outcome
  if !syntax_result.success then syntax_result
  else
    let pylint_result := CodeValidator._run_pylint pylint
    { success := syntax_result.success &&
        (match pylint_result with | some r => r.success | none => true)
      errors := syntax_result.errors ++
        (match pylint_result with | some r => r.errors | none => [])
      warnings := syntax_result.warnings ++
        (match pylint_result with | some r => r.warnings | none => []) }

/-- `CodeValidator._validate_javascript`: an eslint result is returned
as-is; with no eslint the file is merely re-read (`js_read_exc` is the
exception message if that read fails). -/
def CodeValidator._validate_javascript (eslint : Option (List String))
    (js_read_exc : Option String) : ValidationResult :=
  match CodeValidator._run_eslint eslint with
  | some r => r
  | none =>
    match js_read_exc with
    | none =>
      { success := true, errors := []
        warnings := ["ESLint not available for detailed validation"] }
    | some msg =>
      { success := false, errors := ["Error reading file: " ++ msg], warnings := [] }

/-- `CodeValidator.validate_file`: missing file fails, then dispatch on the
lower-cased extension of the relative path. -/
def CodeValidator.validate_file (project_path : String)
    (fs : List (String × String)) (file_path : String)
    (compileOf : String → CompileOutcome) (pylint : Option (List String))
    (eslint : Option (List String)) (js_read_exc : Option String) : ValidationResult :=
  let full_path := pyPathJoin project_path file_path
  match lookupA fs full_path with
  | none => { success := false, errors := ["File not found: " ++ file_path], warnings := [] }
  | some source =>
    let file_ext := pyExtLower file_path
    if file_ext ∈ [".py"] then
      CodeValidator._validate_python (compileOf source) pylint
    else if file_ext ∈ [".js", ".jsx", ".ts", ".tsx"] then
      CodeValidator._validate_javascript eslint js_read_exc
    else
      { success := true, errors := []
        warnings := ["No specific validation for " ++ file_ext ++ " files"] }

/-! ## RuntimeValidator (`runtime_validator.py`) -/

/-- `RuntimeValidationResult` (a `ValidationResult` plus the captured
output and execution time; `execution_time or 0.0` agrees numerically with
`getD`-style defaulting, and the branches below pass it explicitly). -/
structure RuntimeValidationResult extends ValidationResult where
  output : String
  execution_time : Nat
deriving DecidableEq

/-- Outcome of the `subprocess.run` call in `validate_python_file` (the
`try` also covers the copy into the temp directory, which `raised`
absorbs).  `elapsed` is the measured wall-clock time of a completed run. -/
inductive ExecOutcome where
  | timedOut : ExecOutcome
  | completed (returncode : Int) (stdout stderr : String) (elapsed : Nat) : ExecOutcome
  | raised (msg : String) : ExecOutcome

/-- `RuntimeValidator.validate_python_file`: missing file fails; a timeout
produces the timeout error with `execution_time = self.timeout`; a non-zero
exit is a failure carrying the return code and stderr; a zero exit succeeds
with stderr folded into warnings. -/
def RuntimeValidator.validate_python_file (timeout : Nat) (project_path file_path : String)
    (fs : List (String × String)) (outcome : ExecOutcome) : RuntimeValidationResult :=
  let full_path := pyPathJoin project_path file_path
  match lookupA fs full_path with
  | none =>
    { success := false, errors := ["File not found: " ++ file_path], warnings := []
      output := "", execution_time := 0 }
  | some _ =>
    match outcome with
    | .timedOut =>
      { success := false
        errors := ["Execution timed out after " ++ toString timeout ++ " seconds"]
        warnings := [], output := "", execution_time := pyOrNat (some timeout) 0 }
    | .completed returncode stdout stderr elapsed =>
      if returncode ≠ 0 then
        { success := false
          errors := ["Execution failed with return code " ++ toString returncode, stderr]
          warnings := [], output := stdout, execution_time := pyOrNat (some elapsed) 0 }
      else
        { success := true, errors := []
          warnings := if stderr ≠ "" then [stderr] else []
          output := stdout, execution_time := pyOrNat (some elapsed) 0 }
    | .raised msg =>
      { success := false, errors := ["Error executing file: " ++ msg]
        warnings := [], output := "", execution_time := 0 }

/-! ## LLM clients (`llm_client.py`) -/

/-- Python subscription `value[key]` with a string key: only a dict with
that key yields a value; everything else raises (KeyError/TypeError). -/
def Jx.index (j : Jx) (key : String) : Except Unit Jx :=
  match j with
  | .obj fields =>
    match lookupA fields key with
    | some v => Except.ok v
    | none => Except.error ()
  | _ => Except.error ()

/-- Python subscription `value[0]`: list indexing, or string indexing
(yielding a one-character string); everything else raises. -/
def Jx.indexZero (j : Jx) : Except Unit Jx :=
  match j with
  | .arr (x :: _) => Except.ok x
  | .arr [] => Except.error ()
  | .str s =>
    match s.toList with
    | c :: _ => Except.ok (Jx.str (String.mk [c]))
    | [] => Except.error ()
  | _ => Except.error ()

/-- `result["choices"][0]["message"]["content"]`. -/
def extractOpenAI (j : Jx) : Except Unit Jx := do
  let choices ← j.index "choices"
  let first ← choices.indexZero
  let message ← first.index "message"
  message.index "content"

/-- `result["content"][0]["text"]`. -/
def extractAnthropic (j : Jx) : Except Unit Jx := do
  let content ← j.index "content"
  let first ← content.indexZero
  first.index "text"

/-- Outcome of `requests.post` + `response.json()`:
`raised` = the POST itself raised (network failure etc.);
`resp status body` = a response arrived, `body = none` meaning its text was
not valid JSON (`.json()` raises). -/
inductive HttpOutcome where
  | raised : HttpOutcome
  | resp (status : Nat) (body : Option Jx) : HttpOutcome

/-- `requests.Response.raise_for_status` raises exactly for 4xx/5xx. -/
def raiseForStatusFires (status : Nat) : Prop :=
  400 ≤ status ∧ status < 600

instance (status : Nat) : Decidable (raiseForStatusFires status) := by
  unfold raiseForStatusFires; infer_instance

/-- Shared body of `OpenAIClient.generate` / `AnthropicClient.generate`:
no credentials short-circuits to `""`; the `try` block turns a raised POST,
a 4xx/5xx status (`raise_for_status`), an unparseable body or a failed
extraction into `""`; otherwise the (dynamically typed) extracted value is
returned as-is. -/
def llmGenerate (extract : Jx → Except Unit Jx) (api_key : Option String)
    (outcome : HttpOutcome) : Jx :=
  match api_key with
  | none => Jx.str ""
  | some _ =>
    match outcome with
    | .raised => Jx.str ""
    | .resp status body =>
      if raiseForStatusFires status then Jx.str ""
      else
        match body with
        | none => Jx.str ""
        | some j =>
          match extract j with
          | .error _ => Jx.str ""
          | .ok v => v

/-- `OpenAIClient.generate` (`api_key = None` ⇔ `is_available()` false). -/
def OpenAIClient.generate (api_key : Option String) (outcome : HttpOutcome) : Jx :=
  llmGenerate extractOpenAI api_key outcome

/-- `AnthropicClient.generate`. -/
def AnthropicClient.generate (api_key : Option String) (outcome : HttpOutcome) : Jx :=
  llmGenerate extractAnthropic api_key outcome

/-! ## ProjectGenie (`project_genie.py`) -/

/-- The orchestrator state touched by `refine_component`. -/
structure ProjectGenie where
  project_context : ProjectContext
  feedback_loop : FeedbackLoop

/-- The refinement prompt f-string of `ProjectGenie.refine_component`,
verbatim. -/
def refinePrompt (errors : List String) (original_code : String) : String :=
  "\nYou are an expert software developer. Refine the following code to fix these errors:\n\nErrors:\n"
  ++ String.intercalate "\n" (errors.map (fun error => "- " ++ error))
  ++ "\n\nCode to refine:\n```\n"
  ++ original_code
  ++ "\n```\n\nReturn only the refined code without any explanations or markdown formatting.\n"

/-- `ProjectGenie.refine_component`.  Oracles: `llm` is
`self.llm_client.generate`, `extract` is
`CodeGenerator._extract_code_from_response` (a first-fenced-block regex over
the response), `validate` is `self.validate_component` =
`CodeValidator.validate_file` run against the CURRENT filesystem.  A read
failure aborts with `False`; an empty extracted refinement aborts with
`False`; otherwise the file is overwritten, history and feedback are
recorded, and the result is exactly the success of a fresh validation of
the rewritten file. -/
def ProjectGenie.refine_component (md5 : String → String)
    (search : String → String → Bool) (llm extract : String → String)
    (validate : List (String × String) → String → ValidationResult)
    (now : Nat) (project_path path : String) (errors : List String)
    (fs : List (String × String)) (g : ProjectGenie) :
    Bool × List (String × String) × ProjectGenie :=
  let full_path := pyPathJoin project_path path
  match lookupA fs full_path with
  | none => (false, fs, g)
  | some original_code =>
    let refined_code := llm (refinePrompt errors original_code)
    let refined_code := extract refined_code
    if refined_code = "" then (false, fs, g)
    else
      let fs := insertA full_path refined_code fs
      let pc := g.project_context.add_history_entry now "refine"
        ("Refined component at " ++ path)
        (some [("path", Jx.str path), ("errors", Jx.arr (errors.map Jx.str))])
      let g := { g with project_context := pc }
      let g := errors.foldl
        (fun acc error =>
          { acc with feedback_loop :=
              (acc.feedback_loop.add_feedback md5 search now path "error" error).2 })
        g
      let validation_result := validate fs path
      (validation_result.success, fs, g)

/-! ## Auxiliary facts -/

theorem pyOrNat_some (t : Nat) : pyOrNat (some t) 0 = t := by
  unfold pyOrNat
  by_cases h : t = 0
  · simp [h]
  · simp [h]

theorem string_append_ne_self (s t : String) (h : t ≠ "") : s ++ t ≠ s := by
  intro he
  have hd : (s ++ t).data = s.data := congrArg String.data he
  rw [String.data_append] at hd
  have hlen := congrArg List.length hd
  simp at hlen
  exact h (by cases t; simp_all [List.eq_nil_of_length_eq_zero hlen])

/-! ## Concrete oracles for the closed statements below -/

/-- The genuine `hashlib.md5(s.encode()).hexdigest()[:8]` of every string
that the concrete states below ever hash (computed with CPython's
`hashlib`); unconstrained elsewhere. -/
def md5c (s : String) : String :=
  if s = "SyntaxError: invalid syntax" then "1e98e600"
  else if s = "IndentationError: (expected an indented block|unexpected indent)" then "96020c3a"
  else if s = "NameError: name '(\\w+)' is not defined" then "90bcd72c"
  else if s = "SyntaxError: Unexpected token" then "2dd56b41"
  else if s = "ReferenceError: (\\w+) is not defined" then "c348774c"
  else if s = "ImportError: No module named '(\\w+)'" then "12d24a4f"
  else if s = "ModuleNotFoundError: No module named '(\\w+)'" then "a55d3a66"
  else if s = "TypeError: (.*)" then "e3044c7c"
  else if s = "AAA" then "e1faffb3"
  else if s = "BBB" then "2bb225f0"
  else if s = "BBB-marker:None:None:None" then "3ebd0646"
  else if s = "AAA-marker:None:None:None" then "6ede61c5"
  else if s = "x.py:error:boom" then "4714488b"
  else if s = "boom:x.py:None:None" then "5e4fda2b"
  else if s = "E1:None:None:None" then "da89a1ac"
  else ""

/-- A concrete regex-search oracle agreeing with
`bool(re.compile(pattern).search(message))` at every (pattern, message)
pair the concrete states below evaluate it on: none of the eight built-in
regexes matches any of the messages `"AAA-marker"`, `"BBB-marker"`,
`"boom"`, `"E1"`, while the literal patterns `"AAA"`/`"BBB"` match exactly
their own marker message (checked against CPython's `re`). -/
def searchCE (pattern message : String) : Bool :=
  (pattern = "AAA" && message = "AAA-marker") || (pattern = "BBB" && message = "BBB-marker")

/-! ## Claim C1 -/

/-- A persisted `.feedback/feedback.json` document with one previously
saved entry (its id is the real md5 prefix of `"x.py:error:boom"`). -/
def fbSavedW : List (String × FeedbackEntry) :=
  [("4714488b",
    { entry_id := "4714488b", component_path := "x.py", feedback_type := "error",
      feedback_message := "boom", timestamp := 5, resolved := false, resolution := none })]

/-- Claim C1: `ProjectContext` does load its persisted document eagerly on
construction (first two conjuncts: an existing document is adopted
verbatim; an absent one is synthesized as the default), but `FeedbackLoop`
does NOT: its constructor never calls `_load_feedback`, so with a
previously saved non-empty `feedback.json` the constructed object still has
an empty `feedback_entries` — refuting the second half of the claim. -/
theorem claim_C1_construction_loading :
    (∀ (project_path : String) (d : ContextDoc) (now : Nat),
      (ProjectContext.init project_path (some d) now).context = d)
    ∧ (∀ (project_path : String) (now : Nat),
      (ProjectContext.init project_path none now).context =
        ProjectContext._create_default_context project_path now)
    ∧ (FeedbackLoop.init md5c (some fbSavedW)).feedback_entries = []
    ∧ fbSavedW ≠ []
    ∧ (FeedbackLoop._load_feedback (FeedbackLoop.init md5c (some fbSavedW))).feedback_entries
        = fbSavedW := by
  refine ⟨fun _ _ _ => rfl, fun _ _ => rfl, rfl, by decide, rfl⟩

/-! ## Claim C6 -/

/-- Claim C6: when the executed file exists and the subprocess exceeds the
configured timeout (`subprocess.TimeoutExpired`), `validate_python_file`
reports failure, an error mentioning the timeout, and
`execution_time = timeout`. -/
theorem claim_C6_timeout (timeout : Nat) (project_path file_path : String)
    (fs : List (String × String)) (content : String)
    (hfile : lookupA fs (pyPathJoin project_path file_path) = some content) :
    (RuntimeValidator.validate_python_file timeout project_path file_path fs
        ExecOutcome.timedOut).success = false
    ∧ ("Execution timed out after " ++ toString timeout ++ " seconds")
        ∈ (RuntimeValidator.validate_python_file timeout project_path file_path fs
            ExecOutcome.timedOut).errors
    ∧ (RuntimeValidator.validate_python_file timeout project_path file_path fs
        ExecOutcome.timedOut).execution_time = timeout := by
  simp [RuntimeValidator.validate_python_file, hfile, pyOrNat_some]

/-- Witness for C6 at a concrete project: one Python file, timeout 10. -/
theorem claim_C6_timeout_witness :
    (RuntimeValidator.validate_python_file 10 "proj" "a.py" [("proj/a.py", "print(1)")]
        ExecOutcome.timedOut).success = false
    ∧ ("Execution timed out after " ++ toString 10 ++ " seconds")
        ∈ (RuntimeValidator.validate_python_file 10 "proj" "a.py" [("proj/a.py", "print(1)")]
            ExecOutcome.timedOut).errors
    ∧ (RuntimeValidator.validate_python_file 10 "proj" "a.py" [("proj/a.py", "print(1)")]
        ExecOutcome.timedOut).execution_time = 10 :=
  claim_C6_timeout 10 "proj" "a.py" [("proj/a.py", "print(1)")] "print(1)" (by decide)

/-! ## Claim C10 -/

theorem updateReqAt_length (now : Nat) (status : String) (i : Nat)
    (reqs : List Requirement) : (updateReqAt now status i reqs).length = reqs.length := by
  induction reqs generalizing i with
  | nil => cases i <;> rfl
  | cons hd tl ih =>
    cases i with
    | zero => rfl
    | succ n => simpa [updateReqAt] using ih n

theorem updateReqAt_get_ne (now : Nat) (status : String) (i j : Nat)
    (reqs : List Requirement) (h : j ≠ i) :
    (updateReqAt now status i reqs).get? j = reqs.get? j := by
  induction reqs generalizing i j with
  | nil => cases i <;> rfl
  | cons hd tl ih =>
    cases i with
    | zero =>
      cases j with
      | zero => exact absurd rfl h
      | succ m => rfl
    | succ n =>
      cases j with
      | zero => rfl
      | succ m => simpa [updateReqAt] using ih n m (fun hh => h (by omega))

theorem updateReqAt_get_self (now : Nat) (status : String) (i : Nat)
    (reqs : List Requirement) :
    (updateReqAt now status i reqs).get? i =
      (reqs.get? i).map (fun r => { r with status := status, updated_at := some now }) := by
  induction reqs generalizing i with
  | nil => cases i <;> rfl
  | cons hd tl ih =>
    cases i with
    | zero => rfl
    | succ n => simpa [updateReqAt] using ih n

/-- Claim C10 (amended): out of range, `update_requirement_status` leaves
the whole state (document and persisted file) unchanged and raises nothing;
in range it rewrites the addressed requirement's `status`/`updated_at`
(every other requirement and the other document parts untouched) AND —
this is the amendment — refreshes the document's top-level `updated_at`
via `save`, persisting the result. -/
theorem claim_C10_update_requirement_status (now now' : Nat) (index : Int)
    (status : String) (pc : ProjectContext) :
    (¬(0 ≤ index ∧ index < (pc.context.requirements.length : Int)) →
      pc.update_requirement_status now now' index status = pc)
    ∧ ((0 ≤ index ∧ index < (pc.context.requirements.length : Int)) →
      (pc.update_requirement_status now now' index status).context.requirements.get?
          index.toNat
        = (pc.context.requirements.get? index.toNat).map
            (fun r => { r with status := status, updated_at := some now })
      ∧ (∀ j : Nat, j ≠ index.toNat →
          (pc.update_requirement_status now now' index status).context.requirements.get? j
            = pc.context.requirements.get? j)
      ∧ (pc.update_requirement_status now now' index status).context.updated_at = now'
      ∧ (pc.update_requirement_status now now' index status).context.components
          = pc.context.components
      ∧ (pc.update_requirement_status now now' index status).context.history
          = pc.context.history
      ∧ (pc.update_requirement_status now now' index status).context.project_name
          = pc.context.project_name
      ∧ (pc.update_requirement_status now now' index status).context.created_at
          = pc.context.created_at
      ∧ (pc.update_requirement_status now now' index status).saved_file
          = some (pc.update_requirement_status now now' index status).context) := by
  constructor
  · intro h
    simp [ProjectContext.update_requirement_status, h]
  · intro h
    have hred : pc.update_requirement_status now now' index status =
        ProjectContext.save now' { pc with context := { pc.context with
          requirements := updateReqAt now status index.toNat pc.context.requirements } } := by
      simp [ProjectContext.update_requirement_status, h]
    rw [hred]
    exact ⟨updateReqAt_get_self now status index.toNat pc.context.requirements,
      fun j hj => updateReqAt_get_ne now status index.toNat j pc.context.requirements hj,
      rfl, rfl, rfl, rfl, rfl, rfl⟩

/-- A concrete requirement/document/context for the C10 statements. -/
def reqW : Requirement :=
  { description := "r", category := "feature", created_at := 50,
    status := "pending", updated_at := none }

/-- Concrete persisted document with one pending requirement and
`updated_at = 100`. -/
def docW : ContextDoc :=
  { project_name := "proj", created_at := 50, updated_at := 100,
    components := [], requirements := [reqW], history := [] }

/-- Concrete `ProjectContext` state over `docW`. -/
def pcW : ProjectContext := { context := docW, saved_file := some docW }

/-- Counterexample to claim C10 as stated: an in-range
`update_requirement_status` call does NOT mutate only the addressed
requirement's `status` and `updated_at` — the document's own top-level
`updated_at` changes as well (100 becomes 200 here, stamped by `save`). -/
theorem claim_C10_counterexample :
    (pcW.update_requirement_status 150 200 0 "completed").context.updated_at
      ≠ pcW.context.updated_at := by
  decide

/-- Witness instantiating both branches of the amended C10 theorem on the
concrete state: index 5 is out of range (no change at all), index 0 is in
range (requirement rewritten, document restamped and persisted). -/
theorem claim_C10_witness :
    pcW.update_requirement_status 150 200 5 "completed" = pcW
    ∧ (pcW.update_requirement_status 150 200 0 "completed").context.requirements.get? 0
        = some { reqW with status := "completed", updated_at := some 150 }
    ∧ (pcW.update_requirement_status 150 200 0 "completed").context.updated_at = 200 := by
  have hout := (claim_C10_update_requirement_status 150 200 5 "completed" pcW).1 (by decide)
  have hin := (claim_C10_update_requirement_status 150 200 0 "completed" pcW).2 (by decide)
  refine ⟨hout, ?_, hin.2.2.1⟩
  show (pcW.update_requirement_status 150 200 0 "completed").context.requirements.get?
      (Int.toNat 0) = _
  rw [hin.1]
  rfl

/-! ## Claim C7 -/

theorem llmGenerate_no_key (extract : Jx → Except Unit Jx) (outcome : HttpOutcome) :
    llmGenerate extract none outcome = Jx.str "" := rfl

theorem llmGenerate_raised (extract : Jx → Except Unit Jx) (key : String) :
    llmGenerate extract (some key) HttpOutcome.raised = Jx.str "" := rfl

theorem llmGenerate_http_error (extract : Jx → Except Unit Jx) (key : String)
    (status : Nat) (body : Option Jx) (h : raiseForStatusFires status) :
    llmGenerate extract (some key) (HttpOutcome.resp status body) = Jx.str "" := by
  simp [llmGenerate, h]

theorem llmGenerate_bad_json (extract : Jx → Except Unit Jx) (key : String) (status : Nat) :
    llmGenerate extract (some key) (HttpOutcome.resp status none) = Jx.str "" := by
  by_cases h : raiseForStatusFires status <;> simp [llmGenerate, h]

theorem llmGenerate_extract_fails (extract : Jx → Except Unit Jx) (key : String)
    (status : Nat) (j : Jx) (h : extract j = Except.error ()) :
    llmGenerate extract (some key) (HttpOutcome.resp status (some j)) = Jx.str "" := by
  by_cases hs : raiseForStatusFires status <;> simp [llmGenerate, hs, h]

theorem llmGenerate_nonempty (extract : Jx → Except Unit Jx) (api_key : Option String)
    (outcome : HttpOutcome) (h : llmGenerate extract api_key outcome ≠ Jx.str "") :
    ∃ key status j v, api_key = some key ∧ outcome = HttpOutcome.resp status (some j)
      ∧ ¬raiseForStatusFires status ∧ extract j = Except.ok v
      ∧ llmGenerate extract api_key outcome = v ∧ v ≠ Jx.str "" := by
  match api_key with
  | none => exact absurd rfl h
  | some key =>
    match outcome with
    | HttpOutcome.raised => exact absurd rfl h
    | HttpOutcome.resp status body =>
      by_cases hs : raiseForStatusFires status
      · exact absurd (llmGenerate_http_error extract key status body hs) h
      · match body with
        | none => exact absurd (llmGenerate_bad_json extract key status) h
        | some j =>
          match hext : extract j with
          | Except.error () =>
            exact absurd (llmGenerate_extract_fails extract key status j hext) h
          | Except.ok v =>
            have hval : llmGenerate extract (some key) (HttpOutcome.resp status (some j)) = v := by
              simp [llmGenerate, hs, hext]
            exact ⟨key, status, j, v, rfl, rfl, hs, hext, hval, hval ▸ h⟩

/-- Claim C7 (amended): both provider clients return `""` and never raise
when credentials are missing, the POST raises, `raise_for_status` fires
(4xx/5xx), the body is not JSON, or the expected JSON path is absent; and a
non-`""` return happens only for a delivered JSON body whose path extraction
succeeds on a status OUTSIDE 400–599.  The amendment: the guard is
`raise_for_status` (4xx/5xx), not "non-2xx" — a 3xx (or ≥600) response with
a well-formed body is passed through (see the counterexample). -/
theorem claim_C7_generate_error_handling :
    (∀ outcome, OpenAIClient.generate none outcome = Jx.str ""
      ∧ AnthropicClient.generate none outcome = Jx.str "")
    ∧ (∀ key, OpenAIClient.generate (some key) HttpOutcome.raised = Jx.str ""
      ∧ AnthropicClient.generate (some key) HttpOutcome.raised = Jx.str "")
    ∧ (∀ key status body, raiseForStatusFires status →
      OpenAIClient.generate (some key) (HttpOutcome.resp status body) = Jx.str ""
      ∧ AnthropicClient.generate (some key) (HttpOutcome.resp status body) = Jx.str "")
    ∧ (∀ key status, OpenAIClient.generate (some key) (HttpOutcome.resp status none) = Jx.str ""
      ∧ AnthropicClient.generate (some key) (HttpOutcome.resp status none) = Jx.str "")
    ∧ (∀ key status j, extractOpenAI j = Except.error () →
      OpenAIClient.generate (some key) (HttpOutcome.resp status (some j)) = Jx.str "")
    ∧ (∀ key status j, extractAnthropic j = Except.error () →
      AnthropicClient.generate (some key) (HttpOutcome.resp status (some j)) = Jx.str "")
    ∧ (∀ api_key outcome, OpenAIClient.generate api_key outcome ≠ Jx.str "" →
      ∃ key status j v, api_key = some key ∧ outcome = HttpOutcome.resp status (some j)
        ∧ ¬raiseForStatusFires status ∧ extractOpenAI j = Except.ok v
        ∧ OpenAIClient.generate api_key outcome = v ∧ v ≠ Jx.str "")
    ∧ (∀ api_key outcome, AnthropicClient.generate api_key outcome ≠ Jx.str "" →
      ∃ key status j v, api_key = some key ∧ outcome = HttpOutcome.resp status (some j)
        ∧ ¬raiseForStatusFires status ∧ extractAnthropic j = Except.ok v
        ∧ AnthropicClient.generate api_key outcome = v ∧ v ≠ Jx.str "") := by
  refine ⟨fun outcome => ⟨rfl, rfl⟩, fun key => ⟨rfl, rfl⟩,
    fun key status body h => ⟨llmGenerate_http_error _ key status body h,
      llmGenerate_http_error _ key status body h⟩,
    fun key status => ⟨llmGenerate_bad_json _ key status, llmGenerate_bad_json _ key status⟩,
    fun key status j h => llmGenerate_extract_fails _ key status j h,
    fun key status j h => llmGenerate_extract_fails _ key status j h,
    fun api_key outcome h => llmGenerate_nonempty _ api_key outcome h,
    fun api_key outcome h => llmGenerate_nonempty _ api_key outcome h⟩

/-- A well-formed OpenAI-style chat response body whose content is
`"hello"`. -/
def okBodyOpenAI : Jx :=
  Jx.obj [("choices", Jx.arr [Jx.obj [("message", Jx.obj [("content", Jx.str "hello")])]])]

/-- Counterexample to claim C7 as stated: a response with the non-2xx
status 300 and a well-formed body makes `OpenAIClient.generate` return the
non-empty `"hello"` — `requests.Response.raise_for_status` only raises for
4xx/5xx, so "non-2xx ⇒ empty string" is false. -/
theorem claim_C7_counterexample :
    OpenAIClient.generate (some "key") (HttpOutcome.resp 300 (some okBodyOpenAI))
      = Jx.str "hello"
    ∧ Jx.str "hello" ≠ Jx.str ""
    ∧ ¬(200 ≤ 300 ∧ 300 ≤ 299) := by
  refine ⟨rfl, ?_, by omega⟩
  intro h
  injection h with h
  exact absurd h (by decide)

/-- Witness for the amended C7 theorem at concrete inputs: missing key,
raised POST, a 404, an unparseable body, a body missing the path, and the
characterization applied to a delivered `"hi"`. -/
theorem claim_C7_generate_error_handling_witness :
    (OpenAIClient.generate none (HttpOutcome.resp 200 (some okBodyOpenAI)) = Jx.str ""
      ∧ AnthropicClient.generate none (HttpOutcome.resp 200 (some okBodyOpenAI)) = Jx.str "")
    ∧ (OpenAIClient.generate (some "k") HttpOutcome.raised = Jx.str ""
      ∧ AnthropicClient.generate (some "k") HttpOutcome.raised = Jx.str "")
    ∧ (OpenAIClient.generate (some "k") (HttpOutcome.resp 404 (some okBodyOpenAI)) = Jx.str ""
      ∧ AnthropicClient.generate (some "k") (HttpOutcome.resp 404 (some okBodyOpenAI))
        = Jx.str "")
    ∧ (OpenAIClient.generate (some "k") (HttpOutcome.resp 200 none) = Jx.str ""
      ∧ AnthropicClient.generate (some "k") (HttpOutcome.resp 200 none) = Jx.str "")
    ∧ AnthropicClient.generate (some "k") (HttpOutcome.resp 200 (some okBodyOpenAI))
        = Jx.str ""
    ∧ (∃ key status j v, (some "k" : Option String) = some key
        ∧ (HttpOutcome.resp 200 (some okBodyOpenAI)) = HttpOutcome.resp status (some j)
        ∧ ¬raiseForStatusFires status ∧ extractOpenAI j = Except.ok v
        ∧ OpenAIClient.generate (some "k") (HttpOutcome.resp 200 (some okBodyOpenAI)) = v
        ∧ v ≠ Jx.str "") := by
  refine ⟨(claim_C7_generate_error_handling.1 _),
    (claim_C7_generate_error_handling.2.1 "k"),
    (claim_C7_generate_error_handling.2.2.1 "k" 404 _ (by decide)),
    (claim_C7_generate_error_handling.2.2.2.1 "k" 200),
    (claim_C7_generate_error_handling.2.2.2.2.2.1 "k" 200 okBodyOpenAI rfl),
    (claim_C7_generate_error_handling.2.2.2.2.2.2.1 (some "k")
      (HttpOutcome.resp 200 (some okBodyOpenAI)) ?_)⟩
  intro h
  injection h with h
  exact absurd h (by decide)

/-! ## Claim C2 -/

theorem mem_add_matched_pattern (i : ErrorInstance) (q pid : String) :
    pid ∈ (i.add_matched_pattern q).matched_patterns ↔
      pid ∈ i.matched_patterns ∨ pid = q := by
  unfold ErrorInstance.add_matched_pattern
  by_cases h : q ∈ i.matched_patterns
  · simp only [if_pos h]
    constructor
    · exact Or.inl
    · rintro (hp | hp)
      · exact hp
      · exact hp ▸ h
  · simp [if_neg h, List.mem_append]

theorem matched_of_fold (search : String → String → Bool) (msg : String)
    (l : List (String × ErrorPattern)) (inst : ErrorInstance) (pid : String) :
    pid ∈ (l.foldl
        (fun inst pp =>
          if ErrorPattern.matches search pp.2 msg then inst.add_matched_pattern pp.1 else inst)
        inst).matched_patterns
      ↔ pid ∈ inst.matched_patterns
        ∨ ∃ P, (pid, P) ∈ l ∧ ErrorPattern.matches search P msg = true := by
  induction l generalizing inst with
  | nil => simp
  | cons hd tl ih =>
    rw [List.foldl_cons, ih]
    by_cases hm : ErrorPattern.matches search hd.2 msg
    · rw [if_pos hm, mem_add_matched_pattern]
      constructor
      · rintro ((hp | hp) | ⟨P, hP, hPm⟩)
        · exact Or.inl hp
        · have hhd : (pid, hd.2) = hd := by rw [hp]
          exact Or.inr ⟨hd.2, by rw [hhd]; exact List.mem_cons_self _ _, hm⟩
        · exact Or.inr ⟨P, List.mem_cons_of_mem _ hP, hPm⟩
      · rintro (hp | ⟨P, hP, hPm⟩)
        · exact Or.inl (Or.inl hp)
        · rcases List.mem_cons.mp hP with hP' | hP'
          · exact Or.inl (Or.inr (congrArg Prod.fst hP'))
          · exact Or.inr ⟨P, hP', hPm⟩
    · rw [if_neg hm]
      constructor
      · rintro (hp | ⟨P, hP, hPm⟩)
        · exact Or.inl hp
        · exact Or.inr ⟨P, List.mem_cons_of_mem _ hP, hPm⟩
      · rintro (hp | ⟨P, hP, hPm⟩)
        · exact Or.inl hp
        · rcases List.mem_cons.mp hP with hP' | hP'
          · exact absurd (by
              have h2 : hd.2 = P := congrArg Prod.snd hP'.symm
              rw [h2]; exact hPm) hm
          · exact Or.inr ⟨P, hP', hPm⟩

/-- Claim C2: for every registered pattern `(pid, P)` of a collector with
distinct pattern ids (the invariant CPython dicts guarantee), the instance
stored by `add_error` contains `pid` in `matched_patterns` iff `P`'s regex
search succeeds on the message; `matched_patterns` is populated at
insertion time by the scan over all registered patterns. -/
theorem claim_C2_matched_patterns_iff (md5 : String → String)
    (search : String → String → Bool) (now : Nat) (msg : String)
    (fp : Option String) (ln col : Option Int) (ctx : Option String)
    (ts : Option Nat) (c : ErrorCollector) (pid : String) (P : ErrorPattern)
    (hnodup : keysNodup c.error_patterns) (hmem : (pid, P) ∈ c.error_patterns) :
    ∃ inst,
      lookupA (c.add_error md5 search now msg fp ln col ctx ts).2.error_instances
          (c.add_error md5 search now msg fp ln col ctx ts).1 = some inst
      ∧ (pid ∈ inst.matched_patterns ↔ ErrorPattern.matches search P msg = true) := by
  unfold ErrorCollector.add_error
  refine ⟨_, lookupA_insertA_self _ _ _, ?_⟩
  rw [matched_of_fold]
  simp only [List.not_mem_nil, false_or]
  constructor
  · rintro ⟨P', hP', hPm⟩
    rwa [eq_of_mem_of_keysNodup hnodup hP' hmem] at hPm
  · intro hm
    exact ⟨P, hmem, hm⟩

/-- The collector used by the C2 witness: the built-in patterns plus the
literal pattern `"AAA"` (id = md5-prefix `e1faffb3`). -/
def ecW : ErrorCollector :=
  ((ErrorCollector.init md5c).add_error_pattern md5c "AAA" "marker pattern" none none).2

/-- The stored form of the `"AAA"` pattern inside `ecW`. -/
def patW : ErrorPattern :=
  { pattern_id := "e1faffb3", pattern := "AAA", description := "marker pattern",
    examples := [], fix_suggestions := [] }

/-- Witness for C2 on a concrete collector and the message `"AAA-marker"`
(`re.search("AAA", "AAA-marker")` is truthy). -/
theorem claim_C2_matched_patterns_iff_witness :
    ∃ inst,
      lookupA (ecW.add_error md5c searchCE 0 "AAA-marker" none none none none none).2.error_instances
          (ecW.add_error md5c searchCE 0 "AAA-marker" none none none none none).1 = some inst
      ∧ (("e1faffb3" ∈ inst.matched_patterns) ↔
          ErrorPattern.matches searchCE patW "AAA-marker" = true) :=
  claim_C2_matched_patterns_iff md5c searchCE 0 "AAA-marker" none none none none none
    ecW "e1faffb3" patW (by decide) (by decide)

/-! ## Claim C3 -/

theorem insertA_twice_countKey {α : Type} (l : List (String × α)) (k : String) (v v' : α)
    (h : keysNodup l) : countKey (insertA k v' (insertA k v l)) k = 1 := by
  rw [countKey_insertA_self, countKey_insertA_self]
  have := countKey_le_one_of_keysNodup l k h
  omega

theorem add_feedback_entries (md5 : String → String) (search : String → String → Bool)
    (now : Nat) (path ftype msg : String) (fb : FeedbackLoop) :
    (fb.add_feedback md5 search now path ftype msg).2.feedback_entries =
      insertA (md5 (feedbackKeyString path ftype msg))
        { entry_id := md5 (feedbackKeyString path ftype msg)
          component_path := path
          feedback_type := ftype
          feedback_message := msg
          timestamp := now
          resolved := false
          resolution := none }
        fb.feedback_entries := by
  unfold FeedbackLoop.add_feedback FeedbackLoop._save_feedback
  by_cases h : ftype = "error" <;> simp [h]

/-- Claim C3: content-hash idempotence of the three id generators.  First
conjunct: two `add_error_pattern` calls with the same regex (and any
descriptions/examples/suggestions) give the same `pattern_id` and leave
exactly one stored pattern under it.  Second: two `add_feedback` calls with
the same `(component_path, feedback_type, feedback_message)` give the same
`entry_id` and exactly one stored entry.  Third: two `add_error` calls with
the same `(message, file_path, line, column)` (and any context/timestamp)
give the same `error_id` and exactly one stored instance. -/
theorem claim_C3_content_hash_idempotence :
    (∀ (md5 : String → String) (pattern d1 d2 : String)
        (ex1 ex2 fx1 fx2 : Option (List String)) (c : ErrorCollector),
      keysNodup c.error_patterns →
      (c.add_error_pattern md5 pattern d1 ex1 fx1).1 =
        ((c.add_error_pattern md5 pattern d1 ex1 fx1).2.add_error_pattern
          md5 pattern d2 ex2 fx2).1
      ∧ countKey ((c.add_error_pattern md5 pattern d1 ex1 fx1).2.add_error_pattern
            md5 pattern d2 ex2 fx2).2.error_patterns
          (c.add_error_pattern md5 pattern d1 ex1 fx1).1 = 1)
    ∧ (∀ (md5 : String → String) (search : String → String → Bool) (now1 now2 : Nat)
        (path ftype msg : String) (fb : FeedbackLoop),
      keysNodup fb.feedback_entries →
      (fb.add_feedback md5 search now1 path ftype msg).1 =
        ((fb.add_feedback md5 search now1 path ftype msg).2.add_feedback
          md5 search now2 path ftype msg).1
      ∧ countKey ((fb.add_feedback md5 search now1 path ftype msg).2.add_feedback
            md5 search now2 path ftype msg).2.feedback_entries
          (fb.add_feedback md5 search now1 path ftype msg).1 = 1)
    ∧ (∀ (md5 : String → String) (search : String → String → Bool) (now1 now2 : Nat)
        (msg : String) (fp : Option String) (ln col : Option Int)
        (ctx1 ctx2 : Option String) (ts1 ts2 : Option Nat) (c : ErrorCollector),
      keysNodup c.error_instances →
      (c.add_error md5 search now1 msg fp ln col ctx1 ts1).1 =
        ((c.add_error md5 search now1 msg fp ln col ctx1 ts1).2.add_error
          md5 search now2 msg fp ln col ctx2 ts2).1
      ∧ countKey ((c.add_error md5 search now1 msg fp ln col ctx1 ts1).2.add_error
            md5 search now2 msg fp ln col ctx2 ts2).2.error_instances
          (c.add_error md5 search now1 msg fp ln col ctx1 ts1).1 = 1) := by
  refine ⟨fun md5 pattern d1 d2 ex1 ex2 fx1 fx2 c h => ⟨rfl, ?_⟩,
    fun md5 search now1 now2 path ftype msg fb h => ⟨rfl, ?_⟩,
    fun md5 search now1 now2 msg fp ln col ctx1 ctx2 ts1 ts2 c h => ⟨rfl, ?_⟩⟩
  · exact insertA_twice_countKey c.error_patterns (md5 pattern) _ _ h
  · rw [add_feedback_entries, add_feedback_entries]
    exact insertA_twice_countKey fb.feedback_entries
      (md5 (feedbackKeyString path ftype msg)) _ _ h
  · exact insertA_twice_countKey c.error_instances
      (md5 (errorKeyString msg fp ln col)) _ _ h

/-- Witness for C3: all three idempotence statements instantiated on
concrete states (the real md5 prefixes of `"AAA"`, `"x.py:error:boom"` and
`"E1:None:None:None"`). -/
theorem claim_C3_content_hash_idempotence_witness :
    (((ErrorCollector.init md5c).add_error_pattern md5c "AAA" "d" none none).1 =
        (((ErrorCollector.init md5c).add_error_pattern md5c "AAA" "d" none none
          ).2.add_error_pattern md5c "AAA" "d2" none none).1
      ∧ countKey (((ErrorCollector.init md5c).add_error_pattern md5c "AAA" "d" none none
            ).2.add_error_pattern md5c "AAA" "d2" none none).2.error_patterns
          ((ErrorCollector.init md5c).add_error_pattern md5c "AAA" "d" none none).1 = 1)
    ∧ (((FeedbackLoop.init md5c none).add_feedback md5c searchCE 0 "x.py" "error" "boom").1 =
        (((FeedbackLoop.init md5c none).add_feedback md5c searchCE 0 "x.py" "error" "boom"
          ).2.add_feedback md5c searchCE 1 "x.py" "error" "boom").1
      ∧ countKey (((FeedbackLoop.init md5c none).add_feedback md5c searchCE 0 "x.py"
            "error" "boom").2.add_feedback md5c searchCE 1 "x.py" "error" "boom"
          ).2.feedback_entries
          ((FeedbackLoop.init md5c none).add_feedback md5c searchCE 0 "x.py" "error"
            "boom").1 = 1)
    ∧ (((ErrorCollector.init md5c).add_error md5c searchCE 0 "E1" none none none none none).1 =
        (((ErrorCollector.init md5c).add_error md5c searchCE 0 "E1" none none none none none
          ).2.add_error md5c searchCE 1 "E1" none none none none none).1
      ∧ countKey (((ErrorCollector.init md5c).add_error md5c searchCE 0 "E1" none none none
            none none).2.add_error md5c searchCE 1 "E1" none none none none none
          ).2.error_instances
          ((ErrorCollector.init md5c).add_error md5c searchCE 0 "E1" none none none none
            none).1 = 1) :=
  ⟨claim_C3_content_hash_idempotence.1 md5c "AAA" "d" "d2" none none none none
      (ErrorCollector.init md5c) (by decide),
    claim_C3_content_hash_idempotence.2.1 md5c searchCE 0 1 "x.py" "error" "boom"
      (FeedbackLoop.init md5c none) (by decide),
    claim_C3_content_hash_idempotence.2.2 md5c searchCE 0 1 "E1" none none none none
      none none none (ErrorCollector.init md5c) (by decide)⟩

/-! ## Claim C4 -/

/-- Claim C4: `refine_component` returns `True` exactly when the component
file was readable, the LLM round-trip produced non-empty refined code, and
a FRESH static validation of the filesystem with the refined code written
reports success (first conjunct); and whenever the rewrite happens the
returned filesystem is the original with exactly that refined code written
at the component's path (second conjunct).  In particular an empty
refinement or a failing post-rewrite validation yields `False`. -/
theorem claim_C4_refine_revalidates (md5 : String → String)
    (search : String → String → Bool) (llm extract : String → String)
    (validate : List (String × String) → String → ValidationResult)
    (now : Nat) (project_path path : String) (errors : List String)
    (fs : List (String × String)) (g : ProjectGenie) :
    ((ProjectGenie.refine_component md5 search llm extract validate now project_path path
        errors fs g).1 = true
      ↔ ∃ original_code,
          lookupA fs (pyPathJoin project_path path) = some original_code
          ∧ extract (llm (refinePrompt errors original_code)) ≠ ""
          ∧ (validate (insertA (pyPathJoin project_path path)
              (extract (llm (refinePrompt errors original_code))) fs) path).success = true)
    ∧ (∀ original_code,
        lookupA fs (pyPathJoin project_path path) = some original_code →
        extract (llm (refinePrompt errors original_code)) ≠ "" →
        (ProjectGenie.refine_component md5 search llm extract validate now project_path path
            errors fs g).2.1 =
          insertA (pyPathJoin project_path path)
            (extract (llm (refinePrompt errors original_code))) fs) := by
  cases hlook : lookupA fs (pyPathJoin project_path path) with
  | none =>
    have hred : ProjectGenie.refine_component md5 search llm extract validate now
        project_path path errors fs g = (false, fs, g) := by
      simp [ProjectGenie.refine_component, hlook]
    rw [hred]
    constructor
    · constructor
      · intro h; cases h
      · rintro ⟨oc, hoc, -, -⟩
        cases hoc
    · intro oc hoc
      cases hoc
  | some oc =>
    by_cases hre : extract (llm (refinePrompt errors oc)) = ""
    · have hred : ProjectGenie.refine_component md5 search llm extract validate now
          project_path path errors fs g = (false, fs, g) := by
        simp [ProjectGenie.refine_component, hlook, hre]
      rw [hred]
      constructor
      · constructor
        · intro h; cases h
        · rintro ⟨oc', hoc', hne', -⟩
          injection hoc' with hoc'
          exact absurd (hoc' ▸ hre) hne'
      · intro oc' hoc' hne'
        injection hoc' with hoc'
        exact absurd (hoc' ▸ hre) hne'
    · have h1 : (ProjectGenie.refine_component md5 search llm extract validate now
          project_path path errors fs g).1 =
            (validate (insertA (pyPathJoin project_path path)
              (extract (llm (refinePrompt errors oc))) fs) path).success := by
        simp [ProjectGenie.refine_component, hlook, hre]
      have h2 : (ProjectGenie.refine_component md5 search llm extract validate now
          project_path path errors fs g).2.1 =
            insertA (pyPathJoin project_path path)
              (extract (llm (refinePrompt errors oc))) fs := by
        simp [ProjectGenie.refine_component, hlook, hre]
      constructor
      · rw [h1]
        constructor
        · intro hv
          exact ⟨oc, rfl, hre, hv⟩
        · rintro ⟨oc', hoc', -, hval'⟩
          injection hoc' with hoc'
          exact hoc'.symm ▸ hval'
      · intro oc' hoc' hne'
        injection hoc' with hoc'
        exact hoc' ▸ h2

/-- Concrete LLM oracle for the C4 witness: always answers `"refined!"`. -/
def llmW : String → String := fun _ => "refined!"

/-- Concrete extraction oracle: the response has no fenced block, so
`_extract_code_from_response` returns the stripped response itself. -/
def extractW : String → String := fun s => s

/-- Concrete validator oracle that reports success. -/
def validateOkW : List (String × String) → String → ValidationResult :=
  fun _ _ => { success := true, errors := [], warnings := [] }

/-- Concrete one-file project for the C4 witness. -/
def fsW4 : List (String × String) := [("proj/a.py", "bad")]

/-- Concrete orchestrator state for the C4 witness. -/
def gW : ProjectGenie :=
  { project_context := ProjectContext.init "proj" none 0
    feedback_loop := FeedbackLoop.init md5c none }

/-- Witness for C4: with a readable file, a non-empty refinement and a
succeeding post-rewrite validation, `refine_component` returns `True` and
the refined code is on disk. -/
theorem claim_C4_refine_revalidates_witness :
    (ProjectGenie.refine_component md5c searchCE llmW extractW validateOkW 0 "proj" "a.py"
        ["E"] fsW4 gW).1 = true
    ∧ (ProjectGenie.refine_component md5c searchCE llmW extractW validateOkW 0 "proj" "a.py"
        ["E"] fsW4 gW).2.1 = insertA "proj/a.py" "refined!" fsW4 := by
  have h := claim_C4_refine_revalidates md5c searchCE llmW extractW validateOkW 0 "proj"
    "a.py" ["E"] fsW4 gW
  constructor
  · exact h.1.mpr ⟨"bad", by decide, by decide, by decide⟩
  · rw [h.2 "bad" (by decide) (by decide)]
    decide

/-! ## Claim C5 -/

/-- The entry stored under `k` is resolved with the fixed note. -/
def resolvedAt (fb : FeedbackLoop) (k : String) : Prop :=
  ∃ e, lookupA fb.feedback_entries k = some e ∧ e.resolved = true
    ∧ e.resolution = some "Applied automatic improvement"

theorem mark_resolved_isSome (fb : FeedbackLoop) (id : String) (r : Option String)
    (k : String) (h : (lookupA fb.feedback_entries k).isSome) :
    (lookupA (fb.mark_resolved id r).2.feedback_entries k).isSome := by
  unfold FeedbackLoop.mark_resolved
  cases he : lookupA fb.feedback_entries id
  · simpa using h
  · simp only [FeedbackLoop._save_feedback]
    exact isSome_lookupA_insertA _ _ _ _ h

theorem mark_resolved_keeps (fb : FeedbackLoop) (id k : String)
    (h : resolvedAt fb k) :
    resolvedAt (fb.mark_resolved id (some "Applied automatic improvement")).2 k := by
  unfold FeedbackLoop.mark_resolved
  cases he : lookupA fb.feedback_entries id
  · simpa [resolvedAt] using h
  · simp only [FeedbackLoop._save_feedback, resolvedAt]
    by_cases hk : k = id
    · subst hk
      exact ⟨_, lookupA_insertA_self _ _ _, rfl, rfl⟩
    · rcases h with ⟨e, hle, hres, hnote⟩
      exact ⟨e, by rw [lookupA_insertA_ne _ _ hk]; exact hle, hres, hnote⟩

theorem mark_resolved_establishes (fb : FeedbackLoop) (k : String)
    (h : (lookupA fb.feedback_entries k).isSome) :
    resolvedAt (fb.mark_resolved k (some "Applied automatic improvement")).2 k := by
  unfold FeedbackLoop.mark_resolved
  cases he : lookupA fb.feedback_entries k
  · rw [he] at h; cases h
  · simp only [FeedbackLoop._save_feedback, resolvedAt]
    exact ⟨_, lookupA_insertA_self _ _ _, rfl, rfl⟩

theorem foldl_resolve_isSome (L : List FeedbackEntry) (fb : FeedbackLoop) (k : String)
    (h : (lookupA fb.feedback_entries k).isSome) :
    (lookupA (L.foldl
        (fun acc e => (acc.mark_resolved e.entry_id (some "Applied automatic improvement")).2)
        fb).feedback_entries k).isSome := by
  induction L generalizing fb with
  | nil => exact h
  | cons e rest ih => exact ih _ (mark_resolved_isSome fb e.entry_id _ k h)

theorem foldl_resolve_keeps (L : List FeedbackEntry) (fb : FeedbackLoop) (k : String)
    (h : resolvedAt fb k) :
    resolvedAt (L.foldl
      (fun acc e => (acc.mark_resolved e.entry_id (some "Applied automatic improvement")).2)
      fb) k := by
  induction L generalizing fb with
  | nil => exact h
  | cons e rest ih => exact ih _ (mark_resolved_keeps fb e.entry_id k h)

theorem foldl_resolve_establishes (L : List FeedbackEntry) (fb : FeedbackLoop) (k : String)
    (hmem : ∃ e ∈ L, e.entry_id = k) (h : (lookupA fb.feedback_entries k).isSome) :
    resolvedAt (L.foldl
      (fun acc e => (acc.mark_resolved e.entry_id (some "Applied automatic improvement")).2)
      fb) k := by
  induction L generalizing fb with
  | nil => rcases hmem with ⟨e, he, -⟩; cases he
  | cons e rest ih =>
    rcases hmem with ⟨e0, he0, hk⟩
    rcases List.mem_cons.mp he0 with he0' | he0'
    · rw [List.foldl_cons]
      subst he0'
      exact foldl_resolve_keeps rest _ k
        (hk ▸ mark_resolved_establishes fb e0.entry_id (hk ▸ h))
    · rw [List.foldl_cons]
      exact ih _ ⟨e0, he0', hk⟩ (mark_resolved_isSome fb e.entry_id _ k h)

/-- Claim C5: on a readable component file, `apply_improvement` returns
`True`, the `.bak` sibling holds the pre-call content, the original path
holds the improved code, and every feedback entry for that component path
that existed before the call is afterwards resolved with the fixed note
`"Applied automatic improvement"` — the function consults no validator at
all (it has no validation oracle), so the resolution is unconditional.
The id-consistency hypothesis (`kv.1 = kv.2.entry_id`) is the invariant
`add_feedback` maintains for every stored entry. -/
theorem claim_C5_apply_improvement (project_path component_path improved_code : String)
    (fs : List (String × String)) (fb : FeedbackLoop) (original : String)
    (hread : lookupA fs (pyPathJoin project_path component_path) = some original)
    (hids : ∀ kv ∈ fb.feedback_entries, kv.1 = kv.2.entry_id) :
    (fb.apply_improvement project_path component_path improved_code fs).1 = true
    ∧ lookupA (fb.apply_improvement project_path component_path improved_code fs).2.1
        (pyPathJoin project_path component_path ++ ".bak") = some original
    ∧ lookupA (fb.apply_improvement project_path component_path improved_code fs).2.1
        (pyPathJoin project_path component_path) = some improved_code
    ∧ ∀ kv ∈ fb.feedback_entries, kv.2.component_path = component_path →
        resolvedAt (fb.apply_improvement project_path component_path improved_code fs).2.2
          kv.1 := by
  have hbak : pyPathJoin project_path component_path ++ ".bak"
      ≠ pyPathJoin project_path component_path :=
    string_append_ne_self _ ".bak" (by decide)
  have hred : fb.apply_improvement project_path component_path improved_code fs =
      (true,
        insertA (pyPathJoin project_path component_path) improved_code
          (insertA (pyPathJoin project_path component_path ++ ".bak") original fs),
        (fb.get_feedback_for_component component_path).foldl
          (fun acc e =>
            (acc.mark_resolved e.entry_id (some "Applied automatic improvement")).2)
          fb) := by
    simp [FeedbackLoop.apply_improvement, hread]
  rw [hred]
  refine ⟨rfl, ?_, lookupA_insertA_self _ _ _, ?_⟩
  · rw [lookupA_insertA_ne _ _ hbak]
    exact lookupA_insertA_self _ _ _
  · intro kv hkv hpath
    have hk := hids kv hkv
    refine foldl_resolve_establishes _ _ _ ⟨kv.2, ?_, hk.symm⟩ ?_
    · unfold FeedbackLoop.get_feedback_for_component
      rw [List.mem_filter]
      exact ⟨List.mem_map_of_mem Prod.snd hkv, by simp [hpath]⟩
    · exact lookupA_isSome_of_mem (l := fb.feedback_entries) (k := kv.1) (a := kv.2) hkv

/-- Feedback state for the C5 witness: one `"error"` entry for `"x.py"`
(id = the real md5 prefix `4714488b` of `"x.py:error:boom"`). -/
def fbW5 : FeedbackLoop :=
  ((FeedbackLoop.init md5c none).add_feedback md5c searchCE 0 "x.py" "error" "boom").2

/-- The entry stored inside `fbW5`. -/
def entryW5 : FeedbackEntry :=
  { entry_id := "4714488b", component_path := "x.py", feedback_type := "error",
    feedback_message := "boom", timestamp := 0, resolved := false, resolution := none }

/-- Witness for C5 on a concrete project (one file, one feedback entry). -/
theorem claim_C5_apply_improvement_witness :
    (fbW5.apply_improvement "proj" "x.py" "new" [("proj/x.py", "old")]).1 = true
    ∧ lookupA (fbW5.apply_improvement "proj" "x.py" "new" [("proj/x.py", "old")]).2.1
        (pyPathJoin "proj" "x.py" ++ ".bak") = some "old"
    ∧ lookupA (fbW5.apply_improvement "proj" "x.py" "new" [("proj/x.py", "old")]).2.1
        (pyPathJoin "proj" "x.py") = some "new"
    ∧ resolvedAt (fbW5.apply_improvement "proj" "x.py" "new" [("proj/x.py", "old")]).2.2
        "4714488b" := by
  have h := claim_C5_apply_improvement "proj" "x.py" "new" [("proj/x.py", "old")] fbW5
    "old" (by decide) (by decide)
  exact ⟨h.1, h.2.1, h.2.2.1,
    h.2.2.2 ("4714488b", entryW5) (by decide) (by decide)⟩

/-! ## Claim C9 -/

theorem classifyLintLines_success_errors (lines : List String)
    (h : (classifyLintLines lines).success = true) : (classifyLintLines lines).errors = [] := by
  unfold classifyLintLines at *
  exact List.isEmpty_iff.mp h

theorem validate_python_success_errors (co : CompileOutcome) (pl : Option (List String))
    (h : (CodeValidator._validate_python co pl).success = true) :
    (CodeValidator._validate_python co pl).errors = [] := by
  cases co with
  | ok =>
    cases pl with
    | none => rfl
    | some lines =>
      have hsucc : (classifyLintLines lines).success = true := by
        simpa [CodeValidator._validate_python, CodeValidator.py_syntax_check,
          CodeValidator._run_pylint] using h
      have herr := classifyLintLines_success_errors lines hsucc
      simp [CodeValidator._validate_python, CodeValidator.py_syntax_check,
        CodeValidator._run_pylint, herr]
  | syntaxError lineno msg =>
    unfold CodeValidator._validate_python CodeValidator.py_syntax_check at h
    simp at h
  | otherExc msg =>
    unfold CodeValidator._validate_python CodeValidator.py_syntax_check at h
    simp at h

theorem validate_javascript_success_errors (eslint : Option (List String))
    (js_read_exc : Option String)
    (h : (CodeValidator._validate_javascript eslint js_read_exc).success = true) :
    (CodeValidator._validate_javascript eslint js_read_exc).errors = [] := by
  cases eslint with
  | some lines =>
    have hsucc : (classifyLintLines lines).success = true := by
      simpa [CodeValidator._validate_javascript, CodeValidator._run_eslint] using h
    have herr := classifyLintLines_success_errors lines hsucc
    simp [CodeValidator._validate_javascript, CodeValidator._run_eslint, herr]
  | none =>
    cases js_read_exc with
    | none => rfl
    | some msg =>
      unfold CodeValidator._validate_javascript CodeValidator._run_eslint at h
      simp at h

/-- Claim C9 (implicit invariant): every branch of
`CodeValidator.validate_file` — missing file, the Python syntax/pylint
path, the JavaScript/eslint path, and the unrecognized-extension fallback —
reports `success = true` only with an empty error list (warnings may be
non-empty). -/
theorem claim_C9_success_implies_no_errors (project_path : String)
    (fs : List (String × String)) (file_path : String)
    (compileOf : String → CompileOutcome) (pylint eslint : Option (List String))
    (js_read_exc : Option String)
    (h : (CodeValidator.validate_file project_path fs file_path compileOf pylint eslint
        js_read_exc).success = true) :
    (CodeValidator.validate_file project_path fs file_path compileOf pylint eslint
      js_read_exc).errors = [] := by
  cases hlook : lookupA fs (pyPathJoin project_path file_path) with
  | none =>
    have hred : CodeValidator.validate_file project_path fs file_path compileOf pylint
        eslint js_read_exc =
        { success := false, errors := ["File not found: " ++ file_path], warnings := [] } := by
      simp [CodeValidator.validate_file, hlook]
    rw [hred] at h
    cases h
  | some source =>
    by_cases hpy : pyExtLower file_path = ".py"
    · have hred : CodeValidator.validate_file project_path fs file_path compileOf pylint
          eslint js_read_exc = CodeValidator._validate_python (compileOf source) pylint := by
        simp [CodeValidator.validate_file, hlook, hpy]
      rw [hred] at h ⊢
      exact validate_python_success_errors _ _ h
    · by_cases hjs : pyExtLower file_path = ".js" ∨ pyExtLower file_path = ".jsx"
          ∨ pyExtLower file_path = ".ts" ∨ pyExtLower file_path = ".tsx"
      · have hred : CodeValidator.validate_file project_path fs file_path compileOf pylint
            eslint js_read_exc = CodeValidator._validate_javascript eslint js_read_exc := by
          simp [CodeValidator.validate_file, hlook, hpy, hjs]
        rw [hred] at h ⊢
        exact validate_javascript_success_errors _ _ h
      · have hred : CodeValidator.validate_file project_path fs file_path compileOf pylint
            eslint js_read_exc =
            { success := true, errors := []
              warnings := ["No specific validation for " ++ pyExtLower file_path
                ++ " files"] } := by
          simp [CodeValidator.validate_file, hlook, hpy, hjs]
        rw [hred]

/-- Witness for C9: a concrete `.txt` file takes the
unrecognized-extension branch, succeeding with no errors. -/
theorem claim_C9_success_implies_no_errors_witness :
    (CodeValidator.validate_file "proj" [("proj/a.txt", "x")] "a.txt"
        (fun _ => CompileOutcome.ok) none none none).success = true
    ∧ (CodeValidator.validate_file "proj" [("proj/a.txt", "x")] "a.txt"
        (fun _ => CompileOutcome.ok) none none none).errors = [] :=
  ⟨by decide,
    claim_C9_success_implies_no_errors "proj" [("proj/a.txt", "x")] "a.txt"
      (fun _ => CompileOutcome.ok) none none none (by decide)⟩

/-! ## Claim C8 -/

/-- The inner loop of `get_most_common_patterns`:
`pattern_counts[pid] = pattern_counts.get(pid, 0) + 1` over one instance's
`matched_patterns`. -/
def bumpCounts (acc : List (String × Nat)) (pids : List String) : List (String × Nat) :=
  pids.foldl (fun a pid => insertA pid ((lookupA a pid).getD 0 + 1) a) acc

theorem pattern_counts_eq (c : ErrorCollector) :
    c.pattern_counts =
      c.error_instances.foldl (fun acc kv => bumpCounts acc kv.2.matched_patterns) [] := rfl

theorem bumpCounts_lookup (pids : List String) (acc : List (String × Nat)) (k : String) :
    (lookupA (bumpCounts acc pids) k).getD 0 = (lookupA acc k).getD 0 + pids.count k := by
  induction pids generalizing acc with
  | nil => simp [bumpCounts]
  | cons p ps ih =>
    rw [show bumpCounts acc (p :: ps)
        = bumpCounts (insertA p ((lookupA acc p).getD 0 + 1) acc) ps from rfl, ih]
    by_cases hk : k = p
    · subst hk
      rw [lookupA_insertA_self]
      simp [List.count_cons]
      omega
    · rw [lookupA_insertA_ne _ _ hk]
      have : (p == k) = false := by
        simp only [beq_eq_false_iff_ne, ne_eq]
        exact fun hh => hk hh.symm
      simp [List.count_cons, this]

theorem bumpCounts_keysNodup (pids : List String) (acc : List (String × Nat))
    (h : keysNodup acc) : keysNodup (bumpCounts acc pids) := by
  induction pids generalizing acc with
  | nil => exact h
  | cons p ps ih =>
    exact ih _ (keysNodup_insertA acc p _ h)

/-- Total number of `matched_patterns` occurrences of a pattern id across
the stored instances, in scan order. -/
def countOccs (pid : String) : List (String × ErrorInstance) → Nat
  | [] => 0
  | kv :: rest => kv.2.matched_patterns.count pid + countOccs pid rest

theorem foldl_bump_lookup (instances : List (String × ErrorInstance))
    (acc : List (String × Nat)) (k : String) :
    (lookupA (instances.foldl (fun acc kv => bumpCounts acc kv.2.matched_patterns) acc)
        k).getD 0 = (lookupA acc k).getD 0 + countOccs k instances := by
  induction instances generalizing acc with
  | nil => simp [countOccs]
  | cons kv rest ih =>
    rw [List.foldl_cons, ih, bumpCounts_lookup]
    simp only [countOccs]
    omega

theorem foldl_bump_keysNodup (instances : List (String × ErrorInstance))
    (acc : List (String × Nat)) (h : keysNodup acc) :
    keysNodup (instances.foldl (fun acc kv => bumpCounts acc kv.2.matched_patterns) acc) := by
  induction instances generalizing acc with
  | nil => exact h
  | cons kv rest ih => exact ih _ (bumpCounts_keysNodup _ _ h)

theorem pattern_counts_lookup (c : ErrorCollector) (k : String) :
    (lookupA c.pattern_counts k).getD 0 = countOccs k c.error_instances := by
  rw [pattern_counts_eq]
  simpa [lookupA] using foldl_bump_lookup c.error_instances [] k

theorem pattern_counts_keysNodup (c : ErrorCollector) : keysNodup c.pattern_counts := by
  rw [pattern_counts_eq]
  exact foldl_bump_keysNodup c.error_instances [] (by simp [keysNodup])

theorem countOccs_eq_filter_length (pid : String)
    (instances : List (String × ErrorInstance))
    (h : ∀ kv ∈ instances, kv.2.matched_patterns.Nodup) :
    countOccs pid instances =
      (instances.filter (fun kv => pid ∈ kv.2.matched_patterns)).length := by
  induction instances with
  | nil => rfl
  | cons kv rest ih =>
    have hnd : kv.2.matched_patterns.Nodup := h kv (List.mem_cons_self _ _)
    have hrest := ih (fun kv' hkv' => h kv' (List.mem_cons_of_mem _ hkv'))
    unfold countOccs
    rw [List.filter_cons]
    by_cases hm : pid ∈ kv.2.matched_patterns
    · have hcount : kv.2.matched_patterns.count pid = 1 :=
        List.count_eq_one_of_mem hnd hm
      simp [hm, hcount, hrest]
      omega
    · have hcount : kv.2.matched_patterns.count pid = 0 :=
        List.count_eq_zero_of_not_mem hm
      simp [hm, hcount, hrest]

/-- Claim C8 (amended): `get_most_common_patterns(limit)` returns at most
`limit` pairs; each count is the number of stored instances whose
`matched_patterns` contain the id; the pairs are ordered by count
descending; and — the amendment — ties keep the order of the internal
`pattern_counts` dict, i.e. the order in which each pattern id FIRST occurs
while scanning instances in insertion order (the sort is stable), which is
NOT in general the pattern registration order (see the counterexample). -/
theorem claim_C8_most_common_patterns (limit : Nat) (c : ErrorCollector)
    (h : ∀ kv ∈ c.error_instances, kv.2.matched_patterns.Nodup) :
    (c.get_most_common_patterns limit).length ≤ limit
    ∧ (∀ p ∈ c.get_most_common_patterns limit,
        p.2 = (c.error_instances.filter (fun kv => p.1 ∈ kv.2.matched_patterns)).length)
    ∧ (c.get_most_common_patterns limit).Pairwise (fun a b => b.2 ≤ a.2)
    ∧ (∀ n, (sortByCountDesc c.pattern_counts).filter (fun p => p.2 = n)
        = c.pattern_counts.filter (fun p => p.2 = n)) := by
  refine ⟨?_, ?_, ?_, filter_sortByCountDesc c.pattern_counts⟩
  · unfold ErrorCollector.get_most_common_patterns
    exact List.length_take_le limit _
  · intro p hp
    have hsort : p ∈ sortByCountDesc c.pattern_counts :=
      List.take_subset limit _ hp
    have hmem : p ∈ c.pattern_counts := (mem_sortByCountDesc p _).mp hsort
    have hlk : lookupA c.pattern_counts p.1 = some p.2 :=
      lookupA_eq_some_of_mem (pattern_counts_keysNodup c)
        (by exact hmem)
    have hval := pattern_counts_lookup c p.1
    rw [hlk] at hval
    rw [← countOccs_eq_filter_length p.1 c.error_instances h]
    simpa using hval
  · exact List.Pairwise.sublist (List.take_sublist limit _)
      (sorted_sortByCountDesc c.pattern_counts)

/-- The collector refuting the tie-break part of claim C8 as stated: the
pattern `"AAA"` is registered BEFORE `"BBB"` (after the built-ins), but the
first recorded error matches only `"BBB"` and the second only `"AAA"`. -/
def ecC8 : ErrorCollector :=
  let c := ErrorCollector.init md5c
  let c := (c.add_error_pattern md5c "AAA" "marker A" none none).2
  let c := (c.add_error_pattern md5c "BBB" "marker B" none none).2
  let c := (c.add_error md5c searchCE 0 "BBB-marker" none none none none none).2
  (c.add_error md5c searchCE 1 "AAA-marker" none none none none none).2

/-- Counterexample to claim C8 as stated: both patterns have count 1 (a
tie), `"AAA"` (id `e1faffb3`) was registered before `"BBB"` (id
`2bb225f0`), yet `get_most_common_patterns` lists `"BBB"` first — the
stable sort ties on FIRST-OCCURRENCE order among recorded instances, not
on registration order. -/
theorem claim_C8_counterexample :
    ErrorCollector.get_most_common_patterns 5 ecC8 = [("2bb225f0", 1), ("e1faffb3", 1)]
    ∧ (ecC8.error_patterns.map Prod.fst).indexOf "e1faffb3"
        < (ecC8.error_patterns.map Prod.fst).indexOf "2bb225f0" := by
  constructor
  · decide
  · decide

/-- Witness for the amended C8 theorem on the same concrete collector. -/
theorem claim_C8_most_common_patterns_witness :
    (ErrorCollector.get_most_common_patterns 5 ecC8).length ≤ 5
    ∧ (∀ p ∈ ErrorCollector.get_most_common_patterns 5 ecC8,
        p.2 = (ecC8.error_instances.filter (fun kv => p.1 ∈ kv.2.matched_patterns)).length)
    ∧ (ErrorCollector.get_most_common_patterns 5 ecC8).Pairwise (fun a b => b.2 ≤ a.2)
    ∧ (∀ n, (sortByCountDesc ecC8.pattern_counts).filter (fun p => p.2 = n)
        = ecC8.pattern_counts.filter (fun p => p.2 = n)) :=
  claim_C8_most_common_patterns 5 ecC8 (by decide)
